import Mathlib

/-!
Verification development for the `tnom` oracle monitor.

The definitions below are shallow embeddings of the Python sources:
  * `tnom/database_handler/db_manager.py` (the epoch store),
  * `tnom/check_apis.py` (the endpoint health selector),
  * `tnom/query/api_queries.py` (the aggregate-vote signing check),
  * `tnom/main.py` (the state reducer and the alert engine).

Python integers are modelled as `Int`, the sqlite table `tnom` as a list of
rows (`Db`), and functions that can raise as `Except`-valued functions.
-/

namespace Tnom

/-- One row of the sqlite table `tnom`, keyed by `slash_epoch`
(`create_database` in `db_manager.py`). -/
structure EpochRow where
  slash_epoch : Int
  miss_counter_events : Int
  miss_counter_p1_executed : Int
  miss_counter_p2_executed : Int
  miss_counter_p3_executed : Int
  unsigned_oracle_events : Int
  price_feed_addr_balance : Int
  small_balance_alert_executed : Int
  very_small_balance_alert_executed : Int
  consecutive_misses : Int
  api_cons_miss : Int
  deriving Repr, DecidableEq

/-- The sqlite table `tnom`: a list of rows.  sqlite's PRIMARY KEY keeps
`slash_epoch` unique; inserts append, updates map over the rows. -/
abbrev Db := List EpochRow

/-- `check_if_epoch_is_recorded` (db_manager.py:150): `SELECT 1 FROM tnom
WHERE slash_epoch = ?` and test whether a row came back. -/
def check_if_epoch_is_recorded (db : Db) (epoch : Int) : Bool :=
  db.any (fun r => r.slash_epoch == epoch)

/-- `read_current_epoch_data` (db_manager.py:169): `SELECT * FROM tnom WHERE
slash_epoch = ?`; the Python function raises `ValueError` when no row exists,
modelled as `none`. -/
def read_current_epoch_data (db : Db) (epoch : Int) : Option EpochRow :=
  db.find? (fun r => r.slash_epoch == epoch)

/-- The effect of the UPDATE statement in `write_epoch_data`
(db_manager.py:268-293) on one matched row.  The SET clauses list the ten
non-key columns ending in `api_cons_miss`, but the parameter tuple supplies
`data["consecutive_misses"], data["slash_epoch"], data["api_cons_miss"]` as
its last three entries, so the `api_cons_miss` column receives
`data["slash_epoch"]` (and the WHERE clause receives `data["api_cons_miss"]`,
see `write_epoch_data` below). -/
def updateRowFromData (data : EpochRow) (r : EpochRow) : EpochRow :=
  { r with
    miss_counter_events := data.miss_counter_events
    miss_counter_p1_executed := data.miss_counter_p1_executed
    miss_counter_p2_executed := data.miss_counter_p2_executed
    miss_counter_p3_executed := data.miss_counter_p3_executed
    unsigned_oracle_events := data.unsigned_oracle_events
    price_feed_addr_balance := data.price_feed_addr_balance
    small_balance_alert_executed := data.small_balance_alert_executed
    very_small_balance_alert_executed := data.very_small_balance_alert_executed
    consecutive_misses := data.consecutive_misses
    api_cons_miss := data.slash_epoch }

/-- `write_epoch_data` (db_manager.py:206-294).  It first tries
`INSERT INTO tnom VALUES (...)`; sqlite raises `IntegrityError` exactly when a
row with the same primary key `slash_epoch` exists, in which case the code
falls back to the UPDATE statement whose WHERE clause is bound (by position)
to `data["api_cons_miss"]`. -/
def write_epoch_data (db : Db) (data : EpochRow) : Db :=
  if check_if_epoch_is_recorded db data.slash_epoch then
    db.map (fun r =>
      if r.slash_epoch == data.api_cons_miss then updateRowFromData data r else r)
  else
    db ++ [data]

/-- The column set of `CREATE TABLE tnom` (db_manager.py:129-144), in source
order; `slash_epoch` is the primary key. -/
def tnom_table_columns : List String :=
  ["slash_epoch", "miss_counter_events", "miss_counter_p1_executed",
   "miss_counter_p2_executed", "miss_counter_p3_executed",
   "unsigned_oracle_events", "price_feed_addr_balance",
   "small_balance_alert_executed", "very_small_balance_alert_executed",
   "consecutive_misses", "api_cons_miss"]

/-- `allowed_columns` of `overwrite_single_field` (db_manager.py:324-335). -/
def allowed_columns : List String :=
  ["miss_counter_events", "miss_counter_p1_executed", "miss_counter_p2_executed",
   "miss_counter_p3_executed", "unsigned_oracle_events", "price_feed_addr_balance",
   "small_balance_alert_executed", "very_small_balance_alert_executed",
   "consecutive_misses", "api_cons_miss"]

/-- Assign one named column of a row, the effect of
`UPDATE tnom SET {field} = ?` for an allowlisted `field`.  An unknown field
name leaves the row unchanged (unreachable behind the allowlist check). -/
def set_column (field : String) (value : Int) (r : EpochRow) : EpochRow :=
  if field = "miss_counter_events" then { r with miss_counter_events := value }
  else if field = "miss_counter_p1_executed" then { r with miss_counter_p1_executed := value }
  else if field = "miss_counter_p2_executed" then { r with miss_counter_p2_executed := value }
  else if field = "miss_counter_p3_executed" then { r with miss_counter_p3_executed := value }
  else if field = "unsigned_oracle_events" then { r with unsigned_oracle_events := value }
  else if field = "price_feed_addr_balance" then { r with price_feed_addr_balance := value }
  else if field = "small_balance_alert_executed" then { r with small_balance_alert_executed := value }
  else if field = "very_small_balance_alert_executed" then { r with very_small_balance_alert_executed := value }
  else if field = "consecutive_misses" then { r with consecutive_misses := value }
  else if field = "api_cons_miss" then { r with api_cons_miss := value }
  else r

/-- The successful branch of `overwrite_single_field`:
`UPDATE tnom SET {field} = ? WHERE slash_epoch = ?` (db_manager.py:345-347). -/
def overwrite_ok (db : Db) (epoch : Int) (field : String) (value : Int) : Db :=
  db.map (fun r => if r.slash_epoch == epoch then set_column field value r else r)

/-- `overwrite_single_field` (db_manager.py:296-351): validates `field`
against `allowed_columns` and raises `ValueError` (modelled as
`Except.error`) otherwise; only allowlisted identifiers reach the
interpolated UPDATE statement. -/
def overwrite_single_field (db : Db) (epoch : Int) (field : String) (value : Int) :
    Except String Db :=
  if field ∈ allowed_columns then
    Except.ok (overwrite_ok db epoch field value)
  else
    Except.error ("Invalid column name: " ++ field)

/-! ### Endpoint health selector (`check_apis.py`) -/

/-- `MAX_BLOCK_HEIGHT_DIFF` (check_apis.py:11). -/
def MAX_BLOCK_HEIGHT_DIFF : Nat := 25

/-- A probe result for one configured endpoint: `some (height, time)` when
`check_latest_block` returned, `none` when it raised (gathered as an
exception) or yielded no data. -/
abbrev Probe := String × Option (Nat × String)

/-- `online_apis_with_data` (check_apis.py:28-30): the endpoints whose probe
succeeded, paired with their data, in input order. -/
def online_apis_with_data (probes : List Probe) : List (String × Nat × String) :=
  probes.filterMap (fun p =>
    match p.2 with
    | some d => some (p.1, d)
    | none => none)

/-- `max(api_data[0] for ...)` (check_apis.py:41) over the online endpoints;
heights are non-negative so the fold from 0 agrees with Python's `max` on a
non-empty list. -/
def max_block_height (online : List (String × Nat × String)) : Nat :=
  (online.map (fun x => x.2.1)).foldl max 0

/-- `check_apis` (check_apis.py:13-48): empty list when nothing responded,
otherwise the responders within `MAX_BLOCK_HEIGHT_DIFF` of the maximum
observed height, in input order. -/
def check_apis (probes : List Probe) : List String :=
  let online := online_apis_with_data probes
  if online.isEmpty then []
  else
    (online.filter
      (fun x => decide (max_block_height online - x.2.1 ≤ MAX_BLOCK_HEIGHT_DIFF))).map
      Prod.fst

/-! ### Aggregate-vote signing check (`query/api_queries.py`) -/

/-- `CODE_ERROR` (api_queries.py:32). -/
def CODE_ERROR : Int := 2

/-- The JSON body and status of the `/aggregate_vote` response, to the depth
`check_aggregate_vote` inspects it: HTTP status, the optional `code` field,
whether the key `aggregate_vote` is present, and the optional `pair` field of
each entry of `exchange_rate_tuples`. -/
structure AggVoteResponse where
  status : Nat
  code : Option Int
  has_aggregate_vote : Bool
  exchange_rate_pairs : List (Option String)
  deriving Repr, DecidableEq

/-- The pair loop of `check_aggregate_vote` (api_queries.py:182-197).
A falsy `pair` (`None` or the empty string) is skipped by the
`if pair and ...` guard; a truthy pair evaluates `pair not in voting_targets`,
which raises `TypeError` when `collect_vote_targets` failed and returned
`None` (modelled as `Except.error`). -/
def check_pairs (vote_targets : Option (List String)) :
    List (Option String) → Except String Bool
  | [] => Except.ok true
  | p :: rest =>
    match p with
    | none => check_pairs vote_targets rest
    | some s =>
      if s = "" then check_pairs vote_targets rest
      else
        match vote_targets with
        | none => Except.error "TypeError: argument of type NoneType is not iterable"
        | some targets =>
          if s ∈ targets then check_pairs vote_targets rest
          else Except.ok false

/-- `check_aggregate_vote` (api_queries.py:149-199) given the already-fetched
`/aggregate_vote` response and the result of `collect_vote_targets`
(api_queries.py:90-113, `none` on any non-200 outcome). -/
def check_aggregate_vote (resp : AggVoteResponse)
    (vote_targets : Option (List String)) : Except String Bool :=
  if resp.status = 200 then
    if resp.code = some CODE_ERROR then Except.ok false
    else if resp.has_aggregate_vote then check_pairs vote_targets resp.exchange_rate_pairs
    else Except.ok false
  else Except.ok false

/-! ### State reducer (`main.py`, monitoring_loop steps 5.2a / 5.2b) -/

/-- The per-tick data assembled by `collect_data_from_random_healthy_api` and
repacked as `query_data` (main.py:565-570). -/
structure Tick where
  miss_counter : Int
  check_for_aggregate_votes : Bool
  current_epoch : Int
  wallet_balance : Int
  deriving Repr, DecidableEq

/-- Step 5.2a (main.py:573-612): the `insert_data` dict built when the tick's
epoch already has a row `r`: the latch fields, `consecutive_misses` and
`api_cons_miss` are copied from the row, `unsigned_oracle_events` is bumped
when the tick is unsigned, and the miss counter and balance are overwritten
with the tick's values. -/
def update_existing_epoch (r : EpochRow) (q : Tick) : EpochRow :=
  { slash_epoch := q.current_epoch
    miss_counter_events := q.miss_counter
    miss_counter_p1_executed := r.miss_counter_p1_executed
    miss_counter_p2_executed := r.miss_counter_p2_executed
    miss_counter_p3_executed := r.miss_counter_p3_executed
    unsigned_oracle_events :=
      r.unsigned_oracle_events + (if q.check_for_aggregate_votes then 0 else 1)
    price_feed_addr_balance := q.wallet_balance
    small_balance_alert_executed := r.small_balance_alert_executed
    very_small_balance_alert_executed := r.very_small_balance_alert_executed
    consecutive_misses := r.consecutive_misses
    api_cons_miss := r.api_cons_miss }

/-- Step 5.2b (main.py:613-652): the `insert_data` dict for a tick whose
epoch has no row yet; the balance latches and `consecutive_misses` carry over
from the epoch-1 row when it exists and seed to 0 otherwise. -/
def new_epoch_row (prev : Option EpochRow) (q : Tick) : EpochRow :=
  { slash_epoch := q.current_epoch
    miss_counter_events := q.miss_counter
    miss_counter_p1_executed := 0
    miss_counter_p2_executed := 0
    miss_counter_p3_executed := 0
    unsigned_oracle_events := 0
    price_feed_addr_balance := q.wallet_balance
    small_balance_alert_executed :=
      match prev with
      | some p => p.small_balance_alert_executed
      | none => 0
    very_small_balance_alert_executed :=
      match prev with
      | some p => p.very_small_balance_alert_executed
      | none => 0
    consecutive_misses :=
      match prev with
      | some p => p.consecutive_misses
      | none => 0
    api_cons_miss := 0 }

/-- The carryover lookup of step 5.2b (main.py:622-638): the previous epoch's
row when `check_if_epoch_is_recorded` finds one, `none` otherwise. -/
def case_b_prev (db : Db) (epoch : Int) : Option EpochRow :=
  if check_if_epoch_is_recorded db (epoch - 1) then
    read_current_epoch_data db (epoch - 1)
  else none

/-! ### Alert engine (`main.py`, MonitoringSystem) -/

/-- Threshold constants of main.py:17-22. -/
def ONE_NIBI : Int := 1000000

/-- `ZERO_PT_ONE` (main.py:18). -/
def ZERO_PT_ONE : Int := 100000

/-- `CONSECUTIVE_MISSES_THRESHOLD` (main.py:19). -/
def CONSECUTIVE_MISSES_THRESHOLD : Int := 3

/-- `P2_UNSIGNED_EV_THR` (main.py:20). -/
def P2_UNSIGNED_EV_THR : Int := 10

/-- `P1_UNSIGNED_EV_THR` (main.py:21). -/
def P1_UNSIGNED_EV_THR : Int := 20

/-- `API_CONS_MISS_THRESHOLD` (main.py:22). -/
def API_CONS_MISS_THRESHOLD : Int := 3

/-- The distinct notifications the engine can emit; one constructor per
(summary, severity) pair appearing in `MonitoringSystem`.  Severities:
`missP3` is a warning, `balanceSmallRecovered`, `balanceVerySmallRecovered`
and `apiWorkingAgain` are info, everything else is critical. -/
inductive AlertKind where
  | missP1
  | missP2
  | missP3
  | consecutive
  | total
  | critical
  | balanceSmallLow
  | balanceSmallRecovered
  | balanceVerySmallLow
  | balanceVerySmallRecovered
  | apiNotWorking
  | apiWorkingAgain
  deriving Repr, DecidableEq

/-- The in-memory, per-process state of `MonitoringSystem` (main.py:24-55). -/
structure MonState where
  consecutive_misses : Int
  last_alert_epoch : Option Int
  api_consecutive_misses : Int
  alert_sent_consecutive : Bool
  alert_sent_total : Bool
  alert_sent_critical : Bool
  alert_sent_healthy_api_missing : Bool
  deriving Repr, DecidableEq

/-- `MonitoringSystem.__init__` (main.py:44-55): the constructor takes only
the configs and the database path and initializes every deduplication flag to
false without reading the database. -/
def mon_init : MonState :=
  { consecutive_misses := 0
    last_alert_epoch := none
    api_consecutive_misses := 0
    alert_sent_consecutive := false
    alert_sent_total := false
    alert_sent_critical := false
    alert_sent_healthy_api_missing := false }

/-- `reset_for_new_epoch` (main.py:57-65): clears `consecutive_misses` and the
four `alert_sent` flags; `api_consecutive_misses` and `last_alert_epoch` are
untouched. -/
def reset_for_new_epoch (s : MonState) : MonState :=
  { s with
    consecutive_misses := 0
    alert_sent_consecutive := false
    alert_sent_total := false
    alert_sent_critical := false
    alert_sent_healthy_api_missing := false }

/-- The epoch check shared by `process_signing_alerts` (main.py:211-213) and
`process_api_not_working` (main.py:311-313): on an epoch change reset the
in-memory state and remember the epoch. -/
def epoch_reset (s : MonState) (epoch : Int) : MonState :=
  if s.last_alert_epoch = some epoch then s
  else { reset_for_new_epoch s with last_alert_epoch := some epoch }

/-- `process_balance_alerts` (main.py:134-191) with `_trigger_balance_alert`
inlined: for each threshold (1 NIBI then 0.1 NIBI) the latch is read from the
in-memory `current_data` row `ins`, and a triggered alert writes the latch to
the epoch's database row via `overwrite_single_field`.  The `if`/`elif`
conditions `balance < T` and `balance >= T` are mutually exclusive, so the
`elif` is modelled as an independent test. -/
def process_balance_alerts (db : Db) (epoch : Int) (balance : Int)
    (ins : EpochRow) : Db × List AlertKind :=
  let fireLow1 : Bool :=
    decide (balance < ONE_NIBI) && decide (ins.small_balance_alert_executed = 0)
  let fireRec1 : Bool :=
    decide (ONE_NIBI ≤ balance) && decide (ins.small_balance_alert_executed ≠ 0)
  let db1 :=
    if fireLow1 then overwrite_ok db epoch "small_balance_alert_executed" 1
    else if fireRec1 then overwrite_ok db epoch "small_balance_alert_executed" 0
    else db
  let fireLow2 : Bool :=
    decide (balance < ZERO_PT_ONE) && decide (ins.very_small_balance_alert_executed = 0)
  let fireRec2 : Bool :=
    decide (ZERO_PT_ONE ≤ balance) && decide (ins.very_small_balance_alert_executed ≠ 0)
  let db2 :=
    if fireLow2 then overwrite_ok db1 epoch "very_small_balance_alert_executed" 1
    else if fireRec2 then overwrite_ok db1 epoch "very_small_balance_alert_executed" 0
    else db1
  (db2,
    ((if fireLow1 then [AlertKind.balanceSmallLow] else []) ++
     (if fireRec1 then [AlertKind.balanceSmallRecovered] else [])) ++
    ((if fireLow2 then [AlertKind.balanceVerySmallLow] else []) ++
     (if fireRec2 then [AlertKind.balanceVerySmallRecovered] else [])))

/-- `process_signing_alerts` (main.py:193-291).  `signed` is
`query_data["check_for_aggregate_votes"]`; `total_misses` is the
`unsigned_oracle_events` of the freshly built `insert_data`.  The database
read of the current epoch row feeds the recomputed `consecutive_misses`,
which is written back via `overwrite_single_field`; in the source a missing
row surfaces as the `previous_data is None` branch. -/
def process_signing_alerts (db : Db) (s0 : MonState) (epoch : Int)
    (signed : Bool) (total_misses : Int) : Db × MonState × List AlertKind :=
  let s := epoch_reset s0 epoch
  let cm : Int :=
    match read_current_epoch_data db epoch with
    | none => if signed then 0 else 1
    | some p => if signed then 0 else p.consecutive_misses + 1
  let fireC : Bool :=
    decide (CONSECUTIVE_MISSES_THRESHOLD ≤ cm) && !s.alert_sent_consecutive
  let fireT : Bool :=
    decide (P2_UNSIGNED_EV_THR ≤ total_misses) && !s.alert_sent_total
  let fireK : Bool :=
    decide (P1_UNSIGNED_EV_THR ≤ total_misses) && !s.alert_sent_critical
  let s1 : MonState :=
    { s with
      consecutive_misses := cm
      alert_sent_consecutive := s.alert_sent_consecutive || fireC
      alert_sent_total := s.alert_sent_total || fireT
      alert_sent_critical := s.alert_sent_critical || fireK }
  let db1 := overwrite_ok db epoch "consecutive_misses" cm
  (db1, s1,
    (if fireC then [AlertKind.consecutive] else []) ++
    (if fireT then [AlertKind.total] else []) ++
    (if fireK then [AlertKind.critical] else []))

/-- `process_miss_parameter_alerts` (main.py:75-94) with
`_trigger_miss_parameter_alert` inlined (at least one notification channel is
enabled, a startup invariant of `main`, so a triggered alert always writes
its latch).  The thresholds are walked in source order p3, p2, p1; every
check reads the in-memory `current_data` row `ins`. -/
def process_miss_parameter_alerts (db : Db) (epoch : Int) (ins : EpochRow) :
    Db × List AlertKind :=
  let fire3 : Bool :=
    decide (10 < ins.miss_counter_events) && decide (ins.miss_counter_p3_executed = 0)
  let db1 := if fire3 then overwrite_ok db epoch "miss_counter_p3_executed" 1 else db
  let fire2 : Bool :=
    decide (25 < ins.miss_counter_events) && decide (ins.miss_counter_p2_executed = 0)
  let db2 := if fire2 then overwrite_ok db1 epoch "miss_counter_p2_executed" 1 else db1
  let fire1 : Bool :=
    decide (50 < ins.miss_counter_events) && decide (ins.miss_counter_p1_executed = 0)
  let db3 := if fire1 then overwrite_ok db2 epoch "miss_counter_p1_executed" 1 else db2
  (db3,
    (if fire3 then [AlertKind.missP3] else []) ++
    (if fire2 then [AlertKind.missP2] else []) ++
    (if fire1 then [AlertKind.missP1] else []))

/-- `process_api_not_working` (main.py:293-380).  On an all-down tick the
local counter is incremented; on a healthy tick the recovery alert fires when
the stored counter reached the threshold with the flag set, then counter and
flag reset.  The down alert fires afterwards from the updated counter, and
the counter is persisted to the `api_cons_miss` column of the epoch's row on
every call. -/
def process_api_not_working (db : Db) (s0 : MonState) (epoch : Int)
    (no_healthy_apis : Bool) : Db × MonState × List AlertKind :=
  let s := epoch_reset s0 epoch
  let fireRec : Bool :=
    !no_healthy_apis &&
      (decide (API_CONS_MISS_THRESHOLD ≤ s.api_consecutive_misses) &&
        s.alert_sent_healthy_api_missing)
  let api1 : Int := if no_healthy_apis then s.api_consecutive_misses + 1 else 0
  let flag1 : Bool := if no_healthy_apis then s.alert_sent_healthy_api_missing else false
  let fireDown : Bool := decide (API_CONS_MISS_THRESHOLD ≤ api1) && !flag1
  let s1 : MonState :=
    { s with
      api_consecutive_misses := api1
      alert_sent_healthy_api_missing := flag1 || fireDown }
  let db1 := overwrite_ok db epoch "api_cons_miss" api1
  (db1, s1,
    (if fireRec then [AlertKind.apiWorkingAgain] else []) ++
    (if fireDown then [AlertKind.apiNotWorking] else []))

/-- The alert section of one monitoring tick (main.py:653-662): balance
alerts, then signing alerts (fed `insert_data["unsigned_oracle_events"]`),
then miss-parameter alerts, all against the just-built `insert_data` row
`ins`. -/
def alert_phase (db : Db) (s : MonState) (q : Tick) (ins : EpochRow) :
    Db × MonState × List AlertKind :=
  let b := process_balance_alerts db q.current_epoch q.wallet_balance ins
  let g := process_signing_alerts b.1 s q.current_epoch q.check_for_aggregate_votes
    ins.unsigned_oracle_events
  let m := process_miss_parameter_alerts g.1 q.current_epoch ins
  (m.1, g.2.1, b.2 ++ g.2.2 ++ m.2)

/-- The collection-and-alert section of one `monitoring_loop` iteration
(main.py:560-662) for a tick `q`: step 5.2a or 5.2b builds `insert_data`,
`write_epoch_data` stores it, and the three alert processors run.  This is
only the part of an iteration after the healthy-API bookkeeping; `loop_iter`
below composes it with that bookkeeping (main.py:544-558) into a full
iteration.  The `| none` fallback is unreachable: a recorded epoch always
reads back. -/
def tick_step (db : Db) (s : MonState) (q : Tick) : Db × MonState × List AlertKind :=
  if check_if_epoch_is_recorded db q.current_epoch then
    match read_current_epoch_data db q.current_epoch with
    | some r =>
      let ins := update_existing_epoch r q
      alert_phase (write_epoch_data db ins) s q ins
    | none => (db, s, [])
  else
    let ins := new_epoch_row (case_b_prev db q.current_epoch) q
    alert_phase (write_epoch_data db ins) s q ins

/-- `read_last_recorded_epoch` (db_manager.py:91-116):
`SELECT MAX(slash_epoch) FROM tnom`; the Python function raises `ValueError`
on an empty table, modelled as `none`. -/
def read_last_recorded_epoch (db : Db) : Option Int :=
  match db.map EpochRow.slash_epoch with
  | [] => none
  | x :: xs => some (xs.foldl max x)

/-- One full `monitoring_loop` iteration on which `check_apis` succeeded
immediately (main.py:544-662): read the latest recorded epoch
(main.py:544-545), run the healthy-path API bookkeeping
`process_api_not_working(latest_epoch, no_healthy_apis=False)`
(main.py:556-558) — whose epoch check can clear the `alert_sent` flags when
the latest recorded epoch differs from `last_alert_epoch` — and then the
collection-and-alert section `tick_step`.  When the store is empty,
`read_last_recorded_epoch` raises and the iteration aborts to the exception
handler (main.py:668-671) without processing anything.  Iterations on which
`check_apis` came back empty produce no tick and are `run_api_down`. -/
def loop_iter (db : Db) (s : MonState) (q : Tick) : Db × MonState × List AlertKind :=
  match read_last_recorded_epoch db with
  | none => (db, s, [])
  | some latest =>
    let a := process_api_not_working db s latest false
    let t := tick_step a.1 a.2.1 q
    (t.1, t.2.1, a.2.2 ++ t.2.2)

/-- A sequence of full healthy-path monitoring iterations, accumulating every
emitted alert. -/
def run_loop (db : Db) (s : MonState) : List Tick → Db × MonState × List AlertKind
  | [] => (db, s, [])
  | q :: qs =>
    let one := loop_iter db s q
    let rest := run_loop one.1 one.2.1 qs
    (rest.1, rest.2.1, one.2.2 ++ rest.2.2)

/-- `n` consecutive loop iterations in which `check_apis` came back empty:
each calls `process_api_not_working` with `no_healthy_apis=True`
(main.py:547-553). -/
def run_api_down (db : Db) (s : MonState) (epoch : Int) :
    Nat → Db × MonState × List AlertKind
  | 0 => (db, s, [])
  | n + 1 =>
    let one := process_api_not_working db s epoch true
    let rest := run_api_down one.1 one.2.1 epoch n
    (rest.1, rest.2.1, one.2.2 ++ rest.2.2)

/-! ### Helper lemmas about the store model -/

theorem recorded_eq_isSome (db : Db) (e : Int) :
    check_if_epoch_is_recorded db e = (read_current_epoch_data db e).isSome := by
  induction db with
  | nil => rfl
  | cons r rest ih =>
    unfold check_if_epoch_is_recorded read_current_epoch_data at ih ⊢
    by_cases h : (r.slash_epoch == e) = true
    · rw [List.find?_cons_of_pos (p := fun r : EpochRow => r.slash_epoch == e) _ h]
      simp [List.any_cons, h]
    · rw [List.find?_cons_of_neg (p := fun r : EpochRow => r.slash_epoch == e) _ h, ← ih]
      simp [List.any_cons, h]

theorem read_of_not_recorded {db : Db} {e : Int}
    (h : check_if_epoch_is_recorded db e = false) :
    read_current_epoch_data db e = none := by
  rw [recorded_eq_isSome] at h
  exact Option.not_isSome_iff_eq_none.mp (by simp [h])

theorem read_some_key {db : Db} {e : Int} {r : EpochRow}
    (h : read_current_epoch_data db e = some r) : r.slash_epoch = e := by
  have := List.find?_some h
  simpa using this

theorem read_map_keyinv (db : Db) (e : Int) (g : EpochRow → EpochRow)
    (hg : ∀ r, (g r).slash_epoch = r.slash_epoch) :
    read_current_epoch_data (db.map g) e = (read_current_epoch_data db e).map g := by
  induction db with
  | nil => rfl
  | cons r rest ih =>
    unfold read_current_epoch_data at ih ⊢
    rw [List.map_cons]
    by_cases h : (r.slash_epoch == e) = true
    · rw [List.find?_cons_of_pos (p := fun r : EpochRow => r.slash_epoch == e) _ h,
        List.find?_cons_of_pos (p := fun r : EpochRow => r.slash_epoch == e) _
          (show ((g r).slash_epoch == e) = true by rw [hg r]; exact h)]
      rfl
    · rw [List.find?_cons_of_neg (p := fun r : EpochRow => r.slash_epoch == e) _ h,
        List.find?_cons_of_neg (p := fun r : EpochRow => r.slash_epoch == e) _
          (show ¬((g r).slash_epoch == e) = true by rw [hg r]; exact h),
        ih]

theorem set_column_key (field : String) (value : Int) (r : EpochRow) :
    (set_column field value r).slash_epoch = r.slash_epoch := by
  unfold set_column
  repeat' split
  all_goals rfl

theorem updateRowFromData_key (d r : EpochRow) :
    (updateRowFromData d r).slash_epoch = r.slash_epoch := rfl

theorem read_overwrite_self (db : Db) (e : Int) (field : String) (value : Int) :
    read_current_epoch_data (overwrite_ok db e field value) e =
      (read_current_epoch_data db e).map (set_column field value) := by
  unfold overwrite_ok
  rw [read_map_keyinv]
  · cases h : read_current_epoch_data db e with
    | none => rfl
    | some r =>
      have hk := read_some_key h
      simp [hk]
  · intro r
    split <;> simp [set_column_key]

theorem read_write_recorded {db : Db} {d : EpochRow}
    (h : check_if_epoch_is_recorded db d.slash_epoch = true) (e : Int) :
    read_current_epoch_data (write_epoch_data db d) e =
      (read_current_epoch_data db e).map
        (fun r => if r.slash_epoch == d.api_cons_miss then updateRowFromData d r else r) := by
  unfold write_epoch_data
  rw [if_pos h, read_map_keyinv]
  intro r
  split <;> simp [updateRowFromData_key]

theorem read_write_not_recorded {db : Db} {d : EpochRow}
    (h : check_if_epoch_is_recorded db d.slash_epoch = false) :
    read_current_epoch_data (write_epoch_data db d) d.slash_epoch = some d := by
  unfold write_epoch_data
  rw [if_neg (by simp [h]), read_current_epoch_data, List.find?_append]
  have h0 : read_current_epoch_data db d.slash_epoch = none := read_of_not_recorded h
  rw [read_current_epoch_data] at h0
  simp [h0]

theorem mem_online (probes : List Probe) (a : String) (h : Nat) (t : String) :
    (a, h, t) ∈ online_apis_with_data probes ↔ (a, some (h, t)) ∈ probes := by
  unfold online_apis_with_data
  rw [List.mem_filterMap]
  constructor
  · rintro ⟨⟨x, o⟩, hp, he⟩
    cases o with
    | none => simp at he
    | some d =>
      simp only [Option.some.injEq, Prod.mk.injEq] at he
      obtain ⟨rfl, rfl⟩ := he
      exact hp
  · intro hp
    exact ⟨(a, some (h, t)), hp, rfl⟩

/-! ### Claim C1, C2, C4, C10: concrete counter-evidence -/

/-- Claim C1: the upsert round-trip fails on the primary-key-conflict path.
The UPDATE in `write_epoch_data` binds the parameter tuple out of order, so
its WHERE clause receives `data["api_cons_miss"]` instead of
`data["slash_epoch"]`: writing a well-formed record `rNew` for epoch 1 (with
`api_cons_miss = 0`) over an existing epoch-1 row `rowA` updates nothing, and
`read_current_epoch_data` still returns the old row, not `rNew`. -/
theorem write_epoch_data_conflict_bug :
    write_epoch_data [(⟨1, 0, 0, 0, 0, 0, 5000000, 0, 0, 0, 0⟩ : EpochRow)]
        ⟨1, 7, 0, 0, 0, 0, 5000000, 0, 0, 0, 0⟩ =
      [⟨1, 0, 0, 0, 0, 0, 5000000, 0, 0, 0, 0⟩] ∧
    read_current_epoch_data
        (write_epoch_data [(⟨1, 0, 0, 0, 0, 0, 5000000, 0, 0, 0, 0⟩ : EpochRow)]
          ⟨1, 7, 0, 0, 0, 0, 5000000, 0, 0, 0, 0⟩) 1 =
      some ⟨1, 0, 0, 0, 0, 0, 5000000, 0, 0, 0, 0⟩ ∧
    (⟨1, 0, 0, 0, 0, 0, 5000000, 0, 0, 0, 0⟩ : EpochRow) ≠
      ⟨1, 7, 0, 0, 0, 0, 5000000, 0, 0, 0, 0⟩ := by
  refine ⟨rfl, rfl, ?_⟩
  decide

/-- Claim C2: `check_aggregate_vote` does not return false on a failure of
the vote-targets query.  When `collect_vote_targets` returns `None` while the
aggregate-vote response is 200 with no error code and carries a pair, the
membership test `pair not in None` raises `TypeError` instead of returning
false; with an empty tuple list it even returns `True`. -/
theorem check_aggregate_vote_vote_targets_failure_bug :
    check_aggregate_vote ⟨200, none, true, [some "ubtc:uusd"]⟩ none =
      Except.error "TypeError: argument of type NoneType is not iterable" ∧
    check_aggregate_vote ⟨200, none, true, []⟩ none = Except.ok true :=
  ⟨rfl, rfl⟩

/-- Claim C4: the stored row's `unsigned_oracle_events` does not count the
unsigned ticks.  Same-epoch ticks store `insert_data` through the broken
conflict path of `write_epoch_data` (see `write_epoch_data_conflict_bug`), so
after two unsigned ticks in epoch 1 the stored row still reads
`unsigned_oracle_events = 0` where the claim demands 2. -/
theorem unsigned_oracle_events_not_persisted_bug :
    (read_current_epoch_data
        (tick_step
          (tick_step [(⟨1, 0, 0, 0, 0, 0, 5000000, 0, 0, 0, 0⟩ : EpochRow)]
            mon_init ⟨0, false, 1, 5000000⟩).1
          (tick_step [(⟨1, 0, 0, 0, 0, 0, 5000000, 0, 0, 0, 0⟩ : EpochRow)]
            mon_init ⟨0, false, 1, 5000000⟩).2.1
          ⟨0, false, 1, 5000000⟩).1 1).map
      EpochRow.unsigned_oracle_events = some 0 :=
  rfl

/-- Claim C10: the alert engine does not re-seed its deduplication state on
restart.  `MonitoringSystem.__init__` sets every `alert_sent` flag to false
without reading the store.  Starting from an epoch-0 row with 9 unsigned
events, one unsigned tick emits the total-misses alert; replaying one tick
from the restarted in-memory state `mon_init` over the resulting database
emits the same total-misses alert a second time for the same epoch. -/
theorem restart_reseeds_dedup_bug :
    (tick_step [(⟨0, 0, 0, 0, 0, 9, 5000000, 0, 0, 0, 0⟩ : EpochRow)]
        mon_init ⟨0, false, 0, 5000000⟩).2.2 = [AlertKind.total] ∧
    (tick_step
        (tick_step [(⟨0, 0, 0, 0, 0, 9, 5000000, 0, 0, 0, 0⟩ : EpochRow)]
          mon_init ⟨0, false, 0, 5000000⟩).1
        mon_init ⟨0, false, 0, 5000000⟩).2.2 = [AlertKind.total] :=
  ⟨rfl, rfl⟩

/-! ### Claim C3: the endpoint health classification -/

/-- Claim C3: the healthy set emitted by `check_apis` is a subset of the
successfully responding endpoints preserving input order, it is empty when no
endpoint responded, and it contains exactly those responders whose height `h`
satisfies `H - h <= 25` for `H` the maximum height among responders. -/
theorem check_apis_healthy_spec (probes : List Probe) :
    (check_apis probes).Sublist ((online_apis_with_data probes).map Prod.fst) ∧
    ((∀ p ∈ probes, p.2 = (none : Option (Nat × String))) → check_apis probes = []) ∧
    (∀ a : String, a ∈ check_apis probes ↔
      ∃ h t, (a, some (h, t)) ∈ probes ∧
        max_block_height (online_apis_with_data probes) - h ≤ MAX_BLOCK_HEIGHT_DIFF) := by
  refine ⟨?_, ?_, ?_⟩
  · unfold check_apis
    by_cases hemp : (online_apis_with_data probes).isEmpty = true
    · rw [if_pos hemp]
      exact List.nil_sublist _
    · rw [if_neg hemp]
      exact List.Sublist.map _ (List.filter_sublist _)
  · intro hall
    have honline : online_apis_with_data probes = [] := by
      unfold online_apis_with_data
      rw [List.filterMap_eq_nil_iff]
      intro p hp
      rw [hall p hp]
    unfold check_apis
    rw [honline]
    rfl
  · intro a
    unfold check_apis
    by_cases hemp : (online_apis_with_data probes).isEmpty = true
    · rw [if_pos hemp]
      rw [List.isEmpty_iff] at hemp
      constructor
      · intro h
        simp at h
      · rintro ⟨h, t, hp, _⟩
        have hmem : (a, h, t) ∈ online_apis_with_data probes :=
          (mem_online probes a h t).mpr hp
        rw [hemp] at hmem
        simp at hmem
    · rw [if_neg hemp]
      rw [List.mem_map]
      constructor
      · rintro ⟨⟨x, hx, tx⟩, hmem, rfl⟩
        rw [List.mem_filter] at hmem
        refine ⟨hx, tx, (mem_online probes x hx tx).mp hmem.1, ?_⟩
        simpa using hmem.2
      · rintro ⟨h, t, hp, hle⟩
        refine ⟨(a, h, t), ?_, rfl⟩
        rw [List.mem_filter]
        exact ⟨(mem_online probes a h t).mpr hp, by simpa using hle⟩

/-- Claim C3 witness: a concrete probe list with one lagging responder, one
failed probe and two healthy responders. -/
theorem check_apis_healthy_spec_witness :
    (check_apis
        [("a", some (100, "t1")), ("b", none), ("c", some (60, "t2")),
         ("d", some (80, "t3"))]).Sublist
      ((online_apis_with_data
        [("a", some (100, "t1")), ("b", none), ("c", some (60, "t2")),
         ("d", some (80, "t3"))]).map Prod.fst) ∧
    ((∀ p ∈ [(("e" : String), (none : Option (Nat × String)))], p.2 = none) →
      check_apis [(("e" : String), (none : Option (Nat × String)))] = []) ∧
    ("d" ∈ check_apis
        [("a", some (100, "t1")), ("b", none), ("c", some (60, "t2")),
         ("d", some (80, "t3"))] ↔
      ∃ h t, (("d" : String), some (h, t)) ∈
          [("a", some (100, "t1")), ("b", none), ("c", some (60, "t2")),
           ("d", some (80, "t3"))] ∧
        max_block_height (online_apis_with_data
          [("a", some (100, "t1")), ("b", none), ("c", some (60, "t2")),
           ("d", some (80, "t3"))]) - h ≤ MAX_BLOCK_HEIGHT_DIFF) :=
  ⟨(check_apis_healthy_spec _).1, (check_apis_healthy_spec _).2.1,
    (check_apis_healthy_spec _).2.2 "d"⟩

/-! ### Claim C5: the new-epoch row -/

/-- Claim C5: on a tick whose epoch has no stored row, the inserted row reads
back verbatim, carries `small_balance_alert_executed`,
`very_small_balance_alert_executed` and `consecutive_misses` over from the
epoch-1 row when it exists (zero otherwise), and always seeds
`unsigned_oracle_events`, the three miss-counter latches and `api_cons_miss`
to 0 while taking the miss counter and wallet balance from the tick. -/
theorem new_epoch_carryover_spec (db : Db) (q : Tick)
    (hnew : check_if_epoch_is_recorded db q.current_epoch = false) :
    read_current_epoch_data
        (write_epoch_data db (new_epoch_row (case_b_prev db q.current_epoch) q))
        q.current_epoch =
      some (new_epoch_row (case_b_prev db q.current_epoch) q) ∧
    (∀ p : EpochRow,
      (new_epoch_row (some p) q).small_balance_alert_executed =
        p.small_balance_alert_executed ∧
      (new_epoch_row (some p) q).very_small_balance_alert_executed =
        p.very_small_balance_alert_executed ∧
      (new_epoch_row (some p) q).consecutive_misses = p.consecutive_misses) ∧
    ((new_epoch_row none q).small_balance_alert_executed = 0 ∧
      (new_epoch_row none q).very_small_balance_alert_executed = 0 ∧
      (new_epoch_row none q).consecutive_misses = 0) ∧
    (∀ o : Option EpochRow,
      (new_epoch_row o q).unsigned_oracle_events = 0 ∧
      (new_epoch_row o q).miss_counter_p1_executed = 0 ∧
      (new_epoch_row o q).miss_counter_p2_executed = 0 ∧
      (new_epoch_row o q).miss_counter_p3_executed = 0 ∧
      (new_epoch_row o q).api_cons_miss = 0 ∧
      (new_epoch_row o q).miss_counter_events = q.miss_counter ∧
      (new_epoch_row o q).price_feed_addr_balance = q.wallet_balance) := by
  refine ⟨read_write_not_recorded hnew, ?_, ⟨rfl, rfl, rfl⟩, ?_⟩
  · intro p
    exact ⟨rfl, rfl, rfl⟩
  · intro o
    exact ⟨rfl, rfl, rfl, rfl, rfl, rfl, rfl⟩

/-- Claim C5 witness: insert the first epoch-7 row over a store holding an
epoch-6 row carrying nonzero balance latches and consecutive misses. -/
theorem new_epoch_carryover_spec_witness :
    check_if_epoch_is_recorded [(⟨6, 0, 0, 0, 0, 4, 900000, 1, 0, 2, 0⟩ : EpochRow)] 7 =
      false ∧
    read_current_epoch_data
        (write_epoch_data [(⟨6, 0, 0, 0, 0, 4, 900000, 1, 0, 2, 0⟩ : EpochRow)]
          (new_epoch_row
            (case_b_prev [(⟨6, 0, 0, 0, 0, 4, 900000, 1, 0, 2, 0⟩ : EpochRow)] 7)
            ⟨3, true, 7, 1500000⟩)) 7 =
      some (new_epoch_row
        (case_b_prev [(⟨6, 0, 0, 0, 0, 4, 900000, 1, 0, 2, 0⟩ : EpochRow)] 7)
        ⟨3, true, 7, 1500000⟩) :=
  ⟨by decide,
    (new_epoch_carryover_spec [(⟨6, 0, 0, 0, 0, 4, 900000, 1, 0, 2, 0⟩ : EpochRow)]
      ⟨3, true, 7, 1500000⟩ (by decide)).1⟩

/-! ### Claim C7: the API-down state machine -/

theorem set_column_api_eq (v : Int) (r : EpochRow) :
    set_column "api_cons_miss" v r = { r with api_cons_miss := v } := rfl

theorem epoch_reset_eq_self {s : MonState} {e : Int} (hl : s.last_alert_epoch = some e) :
    epoch_reset s e = s := by
  unfold epoch_reset
  rw [if_pos hl]

theorem read_overwrite_some {db : Db} {e : Int} {field : String} {v : Int} {r : EpochRow}
    (h : read_current_epoch_data db e = some r) :
    read_current_epoch_data (overwrite_ok db e field v) e = some (set_column field v r) := by
  rw [read_overwrite_self, h]
  rfl

theorem api_down_step_spec (db : Db) (s : MonState) (e : Int)
    (hl : s.last_alert_epoch = some e) :
    process_api_not_working db s e true =
      (overwrite_ok db e "api_cons_miss" (s.api_consecutive_misses + 1),
       { s with
         api_consecutive_misses := s.api_consecutive_misses + 1
         alert_sent_healthy_api_missing :=
           s.alert_sent_healthy_api_missing ||
             (decide (API_CONS_MISS_THRESHOLD ≤ s.api_consecutive_misses + 1) &&
               !s.alert_sent_healthy_api_missing) },
       if decide (API_CONS_MISS_THRESHOLD ≤ s.api_consecutive_misses + 1) &&
           !s.alert_sent_healthy_api_missing then [AlertKind.apiNotWorking] else []) := by
  unfold process_api_not_working
  rw [epoch_reset_eq_self hl]
  rfl

theorem api_healthy_step_spec (db : Db) (s : MonState) (e : Int)
    (hl : s.last_alert_epoch = some e) :
    process_api_not_working db s e false =
      (overwrite_ok db e "api_cons_miss" 0,
       { s with
         api_consecutive_misses := 0
         alert_sent_healthy_api_missing := false },
       if decide (API_CONS_MISS_THRESHOLD ≤ s.api_consecutive_misses) &&
           s.alert_sent_healthy_api_missing then [AlertKind.apiWorkingAgain] else []) := by
  unfold process_api_not_working
  rw [epoch_reset_eq_self hl]
  simp [API_CONS_MISS_THRESHOLD]

theorem run_api_down_flag_true (e : Int) (n : Nat) :
    ∀ (db : Db) (s : MonState), s.last_alert_epoch = some e →
      s.alert_sent_healthy_api_missing = true →
      (run_api_down db s e n).2.2.count AlertKind.apiNotWorking = 0 := by
  induction n with
  | zero =>
    intro db s _ _
    rfl
  | succ n ih =>
    intro db s hl hf
    show ((process_api_not_working db s e true).2.2 ++
      (run_api_down (process_api_not_working db s e true).1
        (process_api_not_working db s e true).2.1 e n).2.2).count AlertKind.apiNotWorking = 0
    rw [api_down_step_spec db s e hl, List.count_append]
    have hrest := ih (overwrite_ok db e "api_cons_miss" (s.api_consecutive_misses + 1))
      { s with
        api_consecutive_misses := s.api_consecutive_misses + 1
        alert_sent_healthy_api_missing :=
          s.alert_sent_healthy_api_missing ||
            (decide (API_CONS_MISS_THRESHOLD ≤ s.api_consecutive_misses + 1) &&
              !s.alert_sent_healthy_api_missing) }
      (by exact hl) (by simp [hf])
    rw [hrest]
    simp [hf]

theorem run_api_down_count_aux (e : Int) (n : Nat) :
    ∀ (db : Db) (s : MonState), s.last_alert_epoch = some e →
      s.alert_sent_healthy_api_missing = false →
      (run_api_down db s e n).2.2.count AlertKind.apiNotWorking =
        if 1 ≤ n ∧ API_CONS_MISS_THRESHOLD ≤ s.api_consecutive_misses + n then 1 else 0 := by
  induction n with
  | zero =>
    intro db s _ _
    simp [run_api_down]
  | succ n ih =>
    intro db s hl hf
    show ((process_api_not_working db s e true).2.2 ++
      (run_api_down (process_api_not_working db s e true).1
        (process_api_not_working db s e true).2.1 e n).2.2).count AlertKind.apiNotWorking =
      if 1 ≤ n + 1 ∧ API_CONS_MISS_THRESHOLD ≤ s.api_consecutive_misses + (n + 1) then 1 else 0
    rw [api_down_step_spec db s e hl, List.count_append]
    by_cases hc : API_CONS_MISS_THRESHOLD ≤ s.api_consecutive_misses + 1
    · have hrest := run_api_down_flag_true e n
        (overwrite_ok db e "api_cons_miss" (s.api_consecutive_misses + 1))
        { s with
          api_consecutive_misses := s.api_consecutive_misses + 1
          alert_sent_healthy_api_missing :=
            s.alert_sent_healthy_api_missing ||
              (decide (API_CONS_MISS_THRESHOLD ≤ s.api_consecutive_misses + 1) &&
                !s.alert_sent_healthy_api_missing) }
        (by exact hl) (by simp [hf, hc])
      rw [hrest]
      have h1 : 1 ≤ n + 1 := by omega
      have h2 : API_CONS_MISS_THRESHOLD ≤ s.api_consecutive_misses + ((n : Int) + 1) := by
        unfold API_CONS_MISS_THRESHOLD at hc ⊢
        omega
      simp [hc, hf, h1, h2]
    · have hrest := ih
        (overwrite_ok db e "api_cons_miss" (s.api_consecutive_misses + 1))
        { s with
          api_consecutive_misses := s.api_consecutive_misses + 1
          alert_sent_healthy_api_missing :=
            s.alert_sent_healthy_api_missing ||
              (decide (API_CONS_MISS_THRESHOLD ≤ s.api_consecutive_misses + 1) &&
                !s.alert_sent_healthy_api_missing) }
        (by exact hl) (by simp [hf, hc])
      rw [hrest]
      unfold API_CONS_MISS_THRESHOLD at hc ⊢
      simp only [hc, hf]
      split_ifs <;> simp_all <;> omega

/-- Claim C7: within a run of the API-down state machine (in-run means the
remembered `last_alert_epoch` equals the processed epoch), an all-down tick
increments `api_consecutive_misses`; the critical down alert is emitted
exactly when the incremented count reaches the threshold with the
`healthy_api_missing` flag clear, and sets the flag (so further all-down
ticks emit nothing); a healthy tick emits the recovery alert exactly when the
count is at least 3 with the flag set, then resets count and flag; the count
is persisted to the `api_cons_miss` column on each call; and a fresh all-down
streak of length `n` emits exactly one critical alert iff `n ≥ 3`. -/
theorem api_down_state_machine_spec (db : Db) (s : MonState) (e : Int)
    (hl : s.last_alert_epoch = some e) :
    ((process_api_not_working db s e true).2.1.api_consecutive_misses =
      s.api_consecutive_misses + 1) ∧
    ((process_api_not_working db s e true).2.2.count AlertKind.apiNotWorking =
      if API_CONS_MISS_THRESHOLD ≤ s.api_consecutive_misses + 1 ∧
          s.alert_sent_healthy_api_missing = false then 1 else 0) ∧
    ((process_api_not_working db s e true).2.2.count AlertKind.apiWorkingAgain = 0) ∧
    (s.alert_sent_healthy_api_missing = true →
      (process_api_not_working db s e true).2.2 = [] ∧
      (process_api_not_working db s e true).2.1.alert_sent_healthy_api_missing = true) ∧
    (1 ≤ (process_api_not_working db s e true).2.2.count AlertKind.apiNotWorking →
      (process_api_not_working db s e true).2.1.alert_sent_healthy_api_missing = true) ∧
    ((process_api_not_working db s e false).2.2.count AlertKind.apiWorkingAgain =
      if API_CONS_MISS_THRESHOLD ≤ s.api_consecutive_misses ∧
          s.alert_sent_healthy_api_missing = true then 1 else 0) ∧
    ((process_api_not_working db s e false).2.2.count AlertKind.apiNotWorking = 0) ∧
    ((process_api_not_working db s e false).2.1.api_consecutive_misses = 0 ∧
      (process_api_not_working db s e false).2.1.alert_sent_healthy_api_missing = false) ∧
    (∀ (b : Bool) (r : EpochRow), read_current_epoch_data db e = some r →
      ∃ r', read_current_epoch_data (process_api_not_working db s e b).1 e = some r' ∧
        r'.api_cons_miss = (process_api_not_working db s e b).2.1.api_consecutive_misses) ∧
    (∀ n : Nat, s.api_consecutive_misses = 0 → s.alert_sent_healthy_api_missing = false →
      (run_api_down db s e n).2.2.count AlertKind.apiNotWorking =
        if 3 ≤ n then 1 else 0) := by
  refine ⟨?_, ?_, ?_, ?_, ?_, ?_, ?_, ?_, ?_, ?_⟩
  · rw [api_down_step_spec db s e hl]
  · rw [api_down_step_spec db s e hl]
    by_cases hP : API_CONS_MISS_THRESHOLD ≤ s.api_consecutive_misses + 1 <;>
      cases hb : s.alert_sent_healthy_api_missing <;>
      simp [hP, hb]
  · rw [api_down_step_spec db s e hl]
    split <;> simp
  · intro h
    rw [api_down_step_spec db s e hl]
    simp [h]
  · intro h
    rw [api_down_step_spec db s e hl] at h ⊢
    cases hb : s.alert_sent_healthy_api_missing
    · by_cases hP : API_CONS_MISS_THRESHOLD ≤ s.api_consecutive_misses + 1 <;>
        simp [hb, hP] at h ⊢
    · simp [hb]
  · rw [api_healthy_step_spec db s e hl]
    by_cases hP : API_CONS_MISS_THRESHOLD ≤ s.api_consecutive_misses <;>
      cases hb : s.alert_sent_healthy_api_missing <;>
      simp [hP, hb]
  · rw [api_healthy_step_spec db s e hl]
    split <;> simp
  · rw [api_healthy_step_spec db s e hl]
    exact ⟨rfl, rfl⟩
  · intro b r hr
    cases b
    · rw [api_healthy_step_spec db s e hl]
      refine ⟨set_column "api_cons_miss" 0 r, read_overwrite_some hr, ?_⟩
      rw [set_column_api_eq]
    · rw [api_down_step_spec db s e hl]
      refine ⟨set_column "api_cons_miss" (s.api_consecutive_misses + 1) r,
        read_overwrite_some hr, ?_⟩
      rw [set_column_api_eq]
  · intro n h0 hf
    rw [run_api_down_count_aux e n db s hl hf, h0]
    unfold API_CONS_MISS_THRESHOLD
    split_ifs <;> omega

/-- Claim C7 witness: a concrete in-run state with the counter at 2 and the
flag clear; the third all-down tick emits exactly one critical alert, and a
fresh 4-step all-down streak from the counter at 0 emits exactly one. -/
theorem api_down_state_machine_spec_witness :
    ((process_api_not_working [(⟨5, 0, 0, 0, 0, 0, 5000000, 0, 0, 0, 2⟩ : EpochRow)]
        { mon_init with last_alert_epoch := some 5, api_consecutive_misses := 2 }
        5 true).2.1.api_consecutive_misses = 2 + 1) ∧
    ((process_api_not_working [(⟨5, 0, 0, 0, 0, 0, 5000000, 0, 0, 0, 2⟩ : EpochRow)]
        { mon_init with last_alert_epoch := some 5, api_consecutive_misses := 2 }
        5 true).2.2.count AlertKind.apiNotWorking =
      if API_CONS_MISS_THRESHOLD ≤ 2 + 1 ∧ false = false then 1 else 0) ∧
    ((run_api_down [(⟨5, 0, 0, 0, 0, 0, 5000000, 0, 0, 0, 0⟩ : EpochRow)]
        { mon_init with last_alert_epoch := some 5 } 5 4).2.2.count
      AlertKind.apiNotWorking = if 3 ≤ 4 then 1 else 0) := by
  refine ⟨?_, ?_, ?_⟩
  · exact (api_down_state_machine_spec _ _ 5 rfl).1
  · exact (api_down_state_machine_spec
      [(⟨5, 0, 0, 0, 0, 0, 5000000, 0, 0, 0, 2⟩ : EpochRow)]
      { mon_init with last_alert_epoch := some 5, api_consecutive_misses := 2 }
      5 rfl).2.1
  · exact (api_down_state_machine_spec
      [(⟨5, 0, 0, 0, 0, 0, 5000000, 0, 0, 0, 0⟩ : EpochRow)]
      { mon_init with last_alert_epoch := some 5 } 5 rfl).2.2.2.2.2.2.2.2.2 4 rfl rfl

/-! ### Claim C8: the balance alert latches -/

theorem set_column_small_eq (v : Int) (r : EpochRow) :
    set_column "small_balance_alert_executed" v r =
      { r with small_balance_alert_executed := v } := rfl

theorem set_column_very_small_eq (v : Int) (r : EpochRow) :
    set_column "very_small_balance_alert_executed" v r =
      { r with very_small_balance_alert_executed := v } := rfl

/-- Claim C8: for each balance threshold independently, a tick with the
balance below the threshold and the latch clear emits the critical alert and
sets the stored latch; the latch is cleared exactly on a tick observing the
balance at or above the threshold with the latch set, which emits the info
recovery alert; on any other tick the latch and every other column are
unchanged; and the latches are carried over unchanged into a new epoch's row.
The hypotheses `h1`, `h2` record that the in-memory `insert_data` row carries
the stored row's latch values, as built by both reducer cases. -/
theorem balance_alert_latch_spec (db : Db) (e balance : Int) (ins r : EpochRow)
    (hr : read_current_epoch_data db e = some r)
    (h1 : ins.small_balance_alert_executed = r.small_balance_alert_executed)
    (h2 : ins.very_small_balance_alert_executed = r.very_small_balance_alert_executed) :
    ((process_balance_alerts db e balance ins).2.count AlertKind.balanceSmallLow =
      if balance < ONE_NIBI ∧ r.small_balance_alert_executed = 0 then 1 else 0) ∧
    ((process_balance_alerts db e balance ins).2.count AlertKind.balanceSmallRecovered =
      if ONE_NIBI ≤ balance ∧ r.small_balance_alert_executed ≠ 0 then 1 else 0) ∧
    ((process_balance_alerts db e balance ins).2.count AlertKind.balanceVerySmallLow =
      if balance < ZERO_PT_ONE ∧ r.very_small_balance_alert_executed = 0 then 1 else 0) ∧
    ((process_balance_alerts db e balance ins).2.count AlertKind.balanceVerySmallRecovered =
      if ZERO_PT_ONE ≤ balance ∧ r.very_small_balance_alert_executed ≠ 0 then 1 else 0) ∧
    (∃ r', read_current_epoch_data (process_balance_alerts db e balance ins).1 e = some r' ∧
      r'.small_balance_alert_executed =
        (if balance < ONE_NIBI ∧ r.small_balance_alert_executed = 0 then 1
         else if ONE_NIBI ≤ balance ∧ r.small_balance_alert_executed ≠ 0 then 0
         else r.small_balance_alert_executed) ∧
      r'.very_small_balance_alert_executed =
        (if balance < ZERO_PT_ONE ∧ r.very_small_balance_alert_executed = 0 then 1
         else if ZERO_PT_ONE ≤ balance ∧ r.very_small_balance_alert_executed ≠ 0 then 0
         else r.very_small_balance_alert_executed) ∧
      r'.slash_epoch = r.slash_epoch ∧
      r'.miss_counter_events = r.miss_counter_events ∧
      r'.miss_counter_p1_executed = r.miss_counter_p1_executed ∧
      r'.miss_counter_p2_executed = r.miss_counter_p2_executed ∧
      r'.miss_counter_p3_executed = r.miss_counter_p3_executed ∧
      r'.unsigned_oracle_events = r.unsigned_oracle_events ∧
      r'.price_feed_addr_balance = r.price_feed_addr_balance ∧
      r'.consecutive_misses = r.consecutive_misses ∧
      r'.api_cons_miss = r.api_cons_miss) ∧
    (∀ (p : EpochRow) (q : Tick),
      (new_epoch_row (some p) q).small_balance_alert_executed =
        p.small_balance_alert_executed ∧
      (new_epoch_row (some p) q).very_small_balance_alert_executed =
        p.very_small_balance_alert_executed) := by
  refine ⟨?_, ?_, ?_, ?_, ?_, fun p q => ⟨rfl, rfl⟩⟩ <;>
    rcases lt_or_le balance ONE_NIBI with hb1 | hb1 <;>
    rcases lt_or_le balance ZERO_PT_ONE with hb2 | hb2 <;>
    by_cases hs : r.small_balance_alert_executed = 0 <;>
    by_cases hv : r.very_small_balance_alert_executed = 0 <;>
    simp_all [process_balance_alerts, read_overwrite_some, set_column_small_eq,
      set_column_very_small_eq,
      apply_ite (List.count AlertKind.balanceSmallLow),
      apply_ite (List.count AlertKind.balanceSmallRecovered),
      apply_ite (List.count AlertKind.balanceVerySmallLow),
      apply_ite (List.count AlertKind.balanceVerySmallRecovered)] <;>
    (try simp only [if_neg (not_le.mpr hb1)]) <;>
    (try simp only [if_neg (not_le.mpr hb2)]) <;>
    (try simp only [if_neg (not_lt.mpr hb1)]) <;>
    (try simp only [if_neg (not_lt.mpr hb2)]) <;>
    (try simp_all [read_overwrite_some, set_column_small_eq, set_column_very_small_eq])

/-- Claim C8 witness: a store with epoch-3 row whose latches are clear and a
tick at balance 900000 (below 1 NIBI, above 0.1 NIBI): exactly the small-low
alert fires and the small latch is set. -/
theorem balance_alert_latch_spec_witness :
    ((process_balance_alerts [(⟨3, 0, 0, 0, 0, 0, 900000, 0, 0, 0, 0⟩ : EpochRow)] 3
        900000 ⟨3, 0, 0, 0, 0, 0, 900000, 0, 0, 0, 0⟩).2.count AlertKind.balanceSmallLow =
      if (900000 : Int) < ONE_NIBI ∧ (0 : Int) = 0 then 1 else 0) ∧
    ((process_balance_alerts [(⟨3, 0, 0, 0, 0, 0, 900000, 0, 0, 0, 0⟩ : EpochRow)] 3
        900000 ⟨3, 0, 0, 0, 0, 0, 900000, 0, 0, 0, 0⟩).2.count
      AlertKind.balanceVerySmallLow =
      if (900000 : Int) < ZERO_PT_ONE ∧ (0 : Int) = 0 then 1 else 0) := by
  refine ⟨?_, ?_⟩
  · exact (balance_alert_latch_spec [(⟨3, 0, 0, 0, 0, 0, 900000, 0, 0, 0, 0⟩ : EpochRow)]
      3 900000 ⟨3, 0, 0, 0, 0, 0, 900000, 0, 0, 0, 0⟩
      ⟨3, 0, 0, 0, 0, 0, 900000, 0, 0, 0, 0⟩ rfl rfl rfl).1
  · exact (balance_alert_latch_spec [(⟨3, 0, 0, 0, 0, 0, 900000, 0, 0, 0, 0⟩ : EpochRow)]
      3 900000 ⟨3, 0, 0, 0, 0, 0, 900000, 0, 0, 0, 0⟩
      ⟨3, 0, 0, 0, 0, 0, 900000, 0, 0, 0, 0⟩ rfl rfl rfl).2.2.1

/-! ### Claim C6: at most one alert per kind and epoch -/

theorem set_column_p1_eq (v : Int) (r : EpochRow) :
    set_column "miss_counter_p1_executed" v r =
      { r with miss_counter_p1_executed := v } := rfl

theorem set_column_p2_eq (v : Int) (r : EpochRow) :
    set_column "miss_counter_p2_executed" v r =
      { r with miss_counter_p2_executed := v } := rfl

theorem set_column_p3_eq (v : Int) (r : EpochRow) :
    set_column "miss_counter_p3_executed" v r =
      { r with miss_counter_p3_executed := v } := rfl

theorem set_column_cm_eq (v : Int) (r : EpochRow) :
    set_column "consecutive_misses" v r = { r with consecutive_misses := v } := rfl

theorem mem_balance_alerts {db : Db} {e bal : Int} {ins : EpochRow} {k : AlertKind}
    (hk : k ∈ (process_balance_alerts db e bal ins).2) :
    k = AlertKind.balanceSmallLow ∨ k = AlertKind.balanceSmallRecovered ∨
    k = AlertKind.balanceVerySmallLow ∨ k = AlertKind.balanceVerySmallRecovered := by
  simp only [process_balance_alerts, List.mem_append] at hk
  rcases hk with (hk | hk) | hk | hk <;> (split at hk <;> simp_all)

theorem mem_signing_alerts {db : Db} {s : MonState} {e : Int} {sg : Bool} {tm : Int}
    {k : AlertKind} (hk : k ∈ (process_signing_alerts db s e sg tm).2.2) :
    k = AlertKind.consecutive ∨ k = AlertKind.total ∨ k = AlertKind.critical := by
  simp only [process_signing_alerts, List.mem_append] at hk
  rcases hk with (hk | hk) | hk <;> (split at hk <;> simp_all)

theorem mem_miss_alerts {db : Db} {e : Int} {ins : EpochRow} {k : AlertKind}
    (hk : k ∈ (process_miss_parameter_alerts db e ins).2) :
    k = AlertKind.missP3 ∨ k = AlertKind.missP2 ∨ k = AlertKind.missP1 := by
  simp only [process_miss_parameter_alerts, List.mem_append] at hk
  rcases hk with (hk | hk) | hk <;> (split at hk <;> simp_all)

theorem balance_count_zero (db : Db) (e bal : Int) (ins : EpochRow) {K : AlertKind}
    (hK : K ≠ AlertKind.balanceSmallLow ∧ K ≠ AlertKind.balanceSmallRecovered ∧
      K ≠ AlertKind.balanceVerySmallLow ∧ K ≠ AlertKind.balanceVerySmallRecovered) :
    (process_balance_alerts db e bal ins).2.count K = 0 :=
  List.count_eq_zero.mpr fun h => by
    rcases mem_balance_alerts h with rfl | rfl | rfl | rfl <;> simp_all

theorem signing_count_zero (db : Db) (s : MonState) (e : Int) (sg : Bool) (tm : Int)
    {K : AlertKind} (hK : K ≠ AlertKind.consecutive ∧ K ≠ AlertKind.total ∧
      K ≠ AlertKind.critical) :
    (process_signing_alerts db s e sg tm).2.2.count K = 0 :=
  List.count_eq_zero.mpr fun h => by
    rcases mem_signing_alerts h with rfl | rfl | rfl <;> simp_all

theorem miss_count_zero (db : Db) (e : Int) (ins : EpochRow) {K : AlertKind}
    (hK : K ≠ AlertKind.missP3 ∧ K ≠ AlertKind.missP2 ∧ K ≠ AlertKind.missP1) :
    (process_miss_parameter_alerts db e ins).2.count K = 0 :=
  List.count_eq_zero.mpr fun h => by
    rcases mem_miss_alerts h with rfl | rfl | rfl <;> simp_all

theorem alert_phase_db (db : Db) (s : MonState) (q : Tick) (ins : EpochRow) :
    (alert_phase db s q ins).1 =
      (process_miss_parameter_alerts
        (process_signing_alerts
          (process_balance_alerts db q.current_epoch q.wallet_balance ins).1
          s q.current_epoch q.check_for_aggregate_votes ins.unsigned_oracle_events).1
        q.current_epoch ins).1 := rfl

theorem alert_phase_mon (db : Db) (s : MonState) (q : Tick) (ins : EpochRow) :
    (alert_phase db s q ins).2.1 =
      (process_signing_alerts
        (process_balance_alerts db q.current_epoch q.wallet_balance ins).1
        s q.current_epoch q.check_for_aggregate_votes ins.unsigned_oracle_events).2.1 := rfl

theorem alert_phase_alerts (db : Db) (s : MonState) (q : Tick) (ins : EpochRow) :
    (alert_phase db s q ins).2.2 =
      (process_balance_alerts db q.current_epoch q.wallet_balance ins).2 ++
      (process_signing_alerts
        (process_balance_alerts db q.current_epoch q.wallet_balance ins).1
        s q.current_epoch q.check_for_aggregate_votes ins.unsigned_oracle_events).2.2 ++
      (process_miss_parameter_alerts
        (process_signing_alerts
          (process_balance_alerts db q.current_epoch q.wallet_balance ins).1
          s q.current_epoch q.check_for_aggregate_votes ins.unsigned_oracle_events).1
        q.current_epoch ins).2 := rfl

theorem tick_step_eq_caseA {db : Db} {s : MonState} {q : Tick} {r : EpochRow}
    (hrec : check_if_epoch_is_recorded db q.current_epoch = true)
    (hr : read_current_epoch_data db q.current_epoch = some r) :
    tick_step db s q =
      alert_phase (write_epoch_data db (update_existing_epoch r q)) s q
        (update_existing_epoch r q) := by
  unfold tick_step
  rw [if_pos hrec, hr]

theorem tick_step_eq_caseB {db : Db} {s : MonState} {q : Tick}
    (hrec : check_if_epoch_is_recorded db q.current_epoch = false) :
    tick_step db s q =
      alert_phase (write_epoch_data db (new_epoch_row (case_b_prev db q.current_epoch) q))
        s q (new_epoch_row (case_b_prev db q.current_epoch) q) := by
  unfold tick_step
  rw [if_neg (by simp [hrec])]

theorem write_db_read {db : Db} {d : EpochRow}
    (hrec : check_if_epoch_is_recorded db d.slash_epoch = true) {e : Int} {r : EpochRow}
    (hr : read_current_epoch_data db e = some r) :
    read_current_epoch_data (write_epoch_data db d) e = some r ∨
    read_current_epoch_data (write_epoch_data db d) e = some (updateRowFromData d r) := by
  rw [read_write_recorded hrec e, hr]
  simp only [Option.map_some']
  split
  · exact Or.inr rfl
  · exact Or.inl rfl

theorem balance_db_preserves {db : Db} {e bal : Int} {ins r : EpochRow}
    (hr : read_current_epoch_data db e = some r) :
    ∃ r', read_current_epoch_data (process_balance_alerts db e bal ins).1 e = some r' ∧
      r'.miss_counter_p1_executed = r.miss_counter_p1_executed ∧
      r'.miss_counter_p2_executed = r.miss_counter_p2_executed ∧
      r'.miss_counter_p3_executed = r.miss_counter_p3_executed := by
  simp only [process_balance_alerts]
  repeat' split
  all_goals
    first
    | exact ⟨_, hr, rfl, rfl, rfl⟩
    | exact ⟨_, read_overwrite_some hr,
        by simp [set_column_small_eq, set_column_very_small_eq]⟩
    | exact ⟨_, read_overwrite_some (read_overwrite_some hr),
        by simp [set_column_small_eq, set_column_very_small_eq]⟩

theorem signing_db_preserves {db : Db} {s : MonState} {e : Int} {sg : Bool} {tm : Int}
    {r : EpochRow} (hr : read_current_epoch_data db e = some r) :
    ∃ r', read_current_epoch_data (process_signing_alerts db s e sg tm).1 e = some r' ∧
      r'.miss_counter_p1_executed = r.miss_counter_p1_executed ∧
      r'.miss_counter_p2_executed = r.miss_counter_p2_executed ∧
      r'.miss_counter_p3_executed = r.miss_counter_p3_executed :=
  ⟨_, read_overwrite_some hr, by simp [set_column_cm_eq]⟩

theorem missparam_db_read {db : Db} {e : Int} {ins r : EpochRow}
    (hr : read_current_epoch_data db e = some r) :
    ∃ r', read_current_epoch_data (process_miss_parameter_alerts db e ins).1 e = some r' ∧
      r'.miss_counter_p3_executed =
        (if 10 < ins.miss_counter_events ∧ ins.miss_counter_p3_executed = 0 then 1
         else r.miss_counter_p3_executed) ∧
      r'.miss_counter_p2_executed =
        (if 25 < ins.miss_counter_events ∧ ins.miss_counter_p2_executed = 0 then 1
         else r.miss_counter_p2_executed) ∧
      r'.miss_counter_p1_executed =
        (if 50 < ins.miss_counter_events ∧ ins.miss_counter_p1_executed = 0 then 1
         else r.miss_counter_p1_executed) := by
  simp only [process_miss_parameter_alerts]
  repeat' split
  all_goals
    first
    | exact ⟨_, hr, by simp_all [set_column_p1_eq, set_column_p2_eq, set_column_p3_eq]⟩
    | exact ⟨_, read_overwrite_some hr,
        by simp_all [set_column_p1_eq, set_column_p2_eq, set_column_p3_eq]⟩
    | exact ⟨_, read_overwrite_some (read_overwrite_some hr),
        by simp_all [set_column_p1_eq, set_column_p2_eq, set_column_p3_eq]⟩
    | exact ⟨_, read_overwrite_some (read_overwrite_some (read_overwrite_some hr)),
        by simp_all [set_column_p1_eq, set_column_p2_eq, set_column_p3_eq]⟩

theorem missparam_count_p3 (db : Db) (e : Int) (ins : EpochRow) :
    (process_miss_parameter_alerts db e ins).2.count AlertKind.missP3 =
      if 10 < ins.miss_counter_events ∧ ins.miss_counter_p3_executed = 0 then 1 else 0 := by
  simp only [process_miss_parameter_alerts]
  repeat' split <;> simp_all

theorem missparam_count_p2 (db : Db) (e : Int) (ins : EpochRow) :
    (process_miss_parameter_alerts db e ins).2.count AlertKind.missP2 =
      if 25 < ins.miss_counter_events ∧ ins.miss_counter_p2_executed = 0 then 1 else 0 := by
  simp only [process_miss_parameter_alerts]
  repeat' split <;> simp_all

theorem missparam_count_p1 (db : Db) (e : Int) (ins : EpochRow) :
    (process_miss_parameter_alerts db e ins).2.count AlertKind.missP1 =
      if 50 < ins.miss_counter_events ∧ ins.miss_counter_p1_executed = 0 then 1 else 0 := by
  simp only [process_miss_parameter_alerts]
  repeat' split <;> simp_all

theorem epoch_reset_last (s : MonState) (e : Int) :
    (epoch_reset s e).last_alert_epoch = some e := by
  unfold epoch_reset
  split
  · assumption
  · rfl

theorem signing_last (db : Db) (s : MonState) (e : Int) (sg : Bool) (tm : Int) :
    (process_signing_alerts db s e sg tm).2.1.last_alert_epoch = some e :=
  epoch_reset_last s e

theorem count_ite_le_one {c : Prop} [Decidable c] : (if c then (1 : Nat) else 0) ≤ 1 := by
  split <;> simp

theorem one_le_count_ite {c : Prop} [Decidable c]
    (h : 1 ≤ (if c then (1 : Nat) else 0)) : c := by
  by_contra hc
  simp [hc] at h

theorem signing_total_facts (db : Db) (s : MonState) (e : Int) (sg : Bool) (tm : Int) :
    ((process_signing_alerts db s e sg tm).2.2.count AlertKind.total ≤ 1) ∧
    (s.alert_sent_total = true → s.last_alert_epoch = some e →
      (process_signing_alerts db s e sg tm).2.2.count AlertKind.total = 0 ∧
      (process_signing_alerts db s e sg tm).2.1.alert_sent_total = true) ∧
    (1 ≤ (process_signing_alerts db s e sg tm).2.2.count AlertKind.total →
      (process_signing_alerts db s e sg tm).2.1.alert_sent_total = true) := by
  by_cases hL : s.last_alert_epoch = some e
  · simp only [process_signing_alerts, epoch_reset_eq_self hL]
    cases hft : s.alert_sent_total <;>
      simp [hft, hL, List.count_append, apply_ite (List.count AlertKind.total)] <;>
      exact ⟨count_ite_le_one, fun h => one_le_count_ite h⟩
  · have he : epoch_reset s e = { reset_for_new_epoch s with last_alert_epoch := some e } := by
      unfold epoch_reset
      rw [if_neg hL]
    simp only [process_signing_alerts, he]
    simp [hL, reset_for_new_epoch, List.count_append,
      apply_ite (List.count AlertKind.total)] <;>
    exact ⟨count_ite_le_one, fun h => one_le_count_ite h⟩

theorem signing_consecutive_facts (db : Db) (s : MonState) (e : Int) (sg : Bool) (tm : Int) :
    ((process_signing_alerts db s e sg tm).2.2.count AlertKind.consecutive ≤ 1) ∧
    (s.alert_sent_consecutive = true → s.last_alert_epoch = some e →
      (process_signing_alerts db s e sg tm).2.2.count AlertKind.consecutive = 0 ∧
      (process_signing_alerts db s e sg tm).2.1.alert_sent_consecutive = true) ∧
    (1 ≤ (process_signing_alerts db s e sg tm).2.2.count AlertKind.consecutive →
      (process_signing_alerts db s e sg tm).2.1.alert_sent_consecutive = true) := by
  by_cases hL : s.last_alert_epoch = some e
  · simp only [process_signing_alerts, epoch_reset_eq_self hL]
    cases hft : s.alert_sent_consecutive <;>
      simp [hft, hL, List.count_append, apply_ite (List.count AlertKind.consecutive)] <;>
      exact ⟨count_ite_le_one, fun h => one_le_count_ite h⟩
  · have he : epoch_reset s e = { reset_for_new_epoch s with last_alert_epoch := some e } := by
      unfold epoch_reset
      rw [if_neg hL]
    simp only [process_signing_alerts, he]
    simp [hL, reset_for_new_epoch, List.count_append,
      apply_ite (List.count AlertKind.consecutive)] <;>
    exact ⟨count_ite_le_one, fun h => one_le_count_ite h⟩

theorem signing_critical_facts (db : Db) (s : MonState) (e : Int) (sg : Bool) (tm : Int) :
    ((process_signing_alerts db s e sg tm).2.2.count AlertKind.critical ≤ 1) ∧
    (s.alert_sent_critical = true → s.last_alert_epoch = some e →
      (process_signing_alerts db s e sg tm).2.2.count AlertKind.critical = 0 ∧
      (process_signing_alerts db s e sg tm).2.1.alert_sent_critical = true) ∧
    (1 ≤ (process_signing_alerts db s e sg tm).2.2.count AlertKind.critical →
      (process_signing_alerts db s e sg tm).2.1.alert_sent_critical = true) := by
  by_cases hL : s.last_alert_epoch = some e
  · simp only [process_signing_alerts, epoch_reset_eq_self hL]
    cases hft : s.alert_sent_critical <;>
      simp [hft, hL, List.count_append, apply_ite (List.count AlertKind.critical)] <;>
      exact ⟨count_ite_le_one, fun h => one_le_count_ite h⟩
  · have he : epoch_reset s e = { reset_for_new_epoch s with last_alert_epoch := some e } := by
      unfold epoch_reset
      rw [if_neg hL]
    simp only [process_signing_alerts, he]
    simp [hL, reset_for_new_epoch, List.count_append,
      apply_ite (List.count AlertKind.critical)] <;>
    exact ⟨count_ite_le_one, fun h => one_le_count_ite h⟩

theorem tick_step_cases (db : Db) (s : MonState) (q : Tick) :
    tick_step db s q = (db, s, []) ∨
    ∃ db1 ins, tick_step db s q = alert_phase db1 s q ins := by
  by_cases hrec : check_if_epoch_is_recorded db q.current_epoch = true
  · cases hr : read_current_epoch_data db q.current_epoch with
    | none =>
      left
      unfold tick_step
      rw [if_pos hrec, hr]
    | some r => exact Or.inr ⟨_, _, tick_step_eq_caseA hrec hr⟩
  · exact Or.inr ⟨_, _, tick_step_eq_caseB (by simpa using hrec)⟩

theorem phase_total_facts (db : Db) (s : MonState) (q : Tick) (ins : EpochRow) :
    ((alert_phase db s q ins).2.2.count AlertKind.total ≤ 1) ∧
    (s.alert_sent_total = true → s.last_alert_epoch = some q.current_epoch →
      (alert_phase db s q ins).2.2.count AlertKind.total = 0 ∧
      (alert_phase db s q ins).2.1.alert_sent_total = true) ∧
    (1 ≤ (alert_phase db s q ins).2.2.count AlertKind.total →
      (alert_phase db s q ins).2.1.alert_sent_total = true) ∧
    (alert_phase db s q ins).2.1.last_alert_epoch = some q.current_epoch := by
  rw [alert_phase_alerts, alert_phase_mon, List.count_append, List.count_append,
    balance_count_zero _ _ _ _ ⟨by decide, by decide, by decide, by decide⟩,
    miss_count_zero _ _ _ ⟨by decide, by decide, by decide⟩]
  have hsig := signing_total_facts
    (process_balance_alerts db q.current_epoch q.wallet_balance ins).1 s
    q.current_epoch q.check_for_aggregate_votes ins.unsigned_oracle_events
  refine ⟨by simpa using hsig.1, ?_, ?_, signing_last _ _ _ _ _⟩
  · intro hf hl
    obtain ⟨h0, hflag⟩ := hsig.2.1 hf hl
    exact ⟨by simpa using h0, hflag⟩
  · intro h1
    exact hsig.2.2 (by simpa using h1)

theorem phase_consecutive_facts (db : Db) (s : MonState) (q : Tick) (ins : EpochRow) :
    ((alert_phase db s q ins).2.2.count AlertKind.consecutive ≤ 1) ∧
    (s.alert_sent_consecutive = true → s.last_alert_epoch = some q.current_epoch →
      (alert_phase db s q ins).2.2.count AlertKind.consecutive = 0 ∧
      (alert_phase db s q ins).2.1.alert_sent_consecutive = true) ∧
    (1 ≤ (alert_phase db s q ins).2.2.count AlertKind.consecutive →
      (alert_phase db s q ins).2.1.alert_sent_consecutive = true) ∧
    (alert_phase db s q ins).2.1.last_alert_epoch = some q.current_epoch := by
  rw [alert_phase_alerts, alert_phase_mon, List.count_append, List.count_append,
    balance_count_zero _ _ _ _ ⟨by decide, by decide, by decide, by decide⟩,
    miss_count_zero _ _ _ ⟨by decide, by decide, by decide⟩]
  have hsig := signing_consecutive_facts
    (process_balance_alerts db q.current_epoch q.wallet_balance ins).1 s
    q.current_epoch q.check_for_aggregate_votes ins.unsigned_oracle_events
  refine ⟨by simpa using hsig.1, ?_, ?_, signing_last _ _ _ _ _⟩
  · intro hf hl
    obtain ⟨h0, hflag⟩ := hsig.2.1 hf hl
    exact ⟨by simpa using h0, hflag⟩
  · intro h1
    exact hsig.2.2 (by simpa using h1)

theorem phase_critical_facts (db : Db) (s : MonState) (q : Tick) (ins : EpochRow) :
    ((alert_phase db s q ins).2.2.count AlertKind.critical ≤ 1) ∧
    (s.alert_sent_critical = true → s.last_alert_epoch = some q.current_epoch →
      (alert_phase db s q ins).2.2.count AlertKind.critical = 0 ∧
      (alert_phase db s q ins).2.1.alert_sent_critical = true) ∧
    (1 ≤ (alert_phase db s q ins).2.2.count AlertKind.critical →
      (alert_phase db s q ins).2.1.alert_sent_critical = true) ∧
    (alert_phase db s q ins).2.1.last_alert_epoch = some q.current_epoch := by
  rw [alert_phase_alerts, alert_phase_mon, List.count_append, List.count_append,
    balance_count_zero _ _ _ _ ⟨by decide, by decide, by decide, by decide⟩,
    miss_count_zero _ _ _ ⟨by decide, by decide, by decide⟩]
  have hsig := signing_critical_facts
    (process_balance_alerts db q.current_epoch q.wallet_balance ins).1 s
    q.current_epoch q.check_for_aggregate_votes ins.unsigned_oracle_events
  refine ⟨by simpa using hsig.1, ?_, ?_, signing_last _ _ _ _ _⟩
  · intro hf hl
    obtain ⟨h0, hflag⟩ := hsig.2.1 hf hl
    exact ⟨by simpa using h0, hflag⟩
  · intro h1
    exact hsig.2.2 (by simpa using h1)

theorem tick_total_facts (db : Db) (s : MonState) (q : Tick) :
    ((tick_step db s q).2.2.count AlertKind.total ≤ 1) ∧
    (s.alert_sent_total = true → s.last_alert_epoch = some q.current_epoch →
      (tick_step db s q).2.2.count AlertKind.total = 0 ∧
      (tick_step db s q).2.1.alert_sent_total = true ∧
      (tick_step db s q).2.1.last_alert_epoch = some q.current_epoch) ∧
    (1 ≤ (tick_step db s q).2.2.count AlertKind.total →
      (tick_step db s q).2.1.alert_sent_total = true ∧
      (tick_step db s q).2.1.last_alert_epoch = some q.current_epoch) := by
  rcases tick_step_cases db s q with h | ⟨db1, ins, h⟩ <;> rw [h]
  · exact ⟨by simp, fun hf hl => ⟨rfl, hf, hl⟩, by simp⟩
  · have hp := phase_total_facts db1 s q ins
    exact ⟨hp.1, fun hf hl => ⟨(hp.2.1 hf hl).1, (hp.2.1 hf hl).2, hp.2.2.2⟩,
      fun h1 => ⟨hp.2.2.1 h1, hp.2.2.2⟩⟩

theorem tick_consecutive_facts (db : Db) (s : MonState) (q : Tick) :
    ((tick_step db s q).2.2.count AlertKind.consecutive ≤ 1) ∧
    (s.alert_sent_consecutive = true → s.last_alert_epoch = some q.current_epoch →
      (tick_step db s q).2.2.count AlertKind.consecutive = 0 ∧
      (tick_step db s q).2.1.alert_sent_consecutive = true ∧
      (tick_step db s q).2.1.last_alert_epoch = some q.current_epoch) ∧
    (1 ≤ (tick_step db s q).2.2.count AlertKind.consecutive →
      (tick_step db s q).2.1.alert_sent_consecutive = true ∧
      (tick_step db s q).2.1.last_alert_epoch = some q.current_epoch) := by
  rcases tick_step_cases db s q with h | ⟨db1, ins, h⟩ <;> rw [h]
  · exact ⟨by simp, fun hf hl => ⟨rfl, hf, hl⟩, by simp⟩
  · have hp := phase_consecutive_facts db1 s q ins
    exact ⟨hp.1, fun hf hl => ⟨(hp.2.1 hf hl).1, (hp.2.1 hf hl).2, hp.2.2.2⟩,
      fun h1 => ⟨hp.2.2.1 h1, hp.2.2.2⟩⟩

theorem tick_critical_facts (db : Db) (s : MonState) (q : Tick) :
    ((tick_step db s q).2.2.count AlertKind.critical ≤ 1) ∧
    (s.alert_sent_critical = true → s.last_alert_epoch = some q.current_epoch →
      (tick_step db s q).2.2.count AlertKind.critical = 0 ∧
      (tick_step db s q).2.1.alert_sent_critical = true ∧
      (tick_step db s q).2.1.last_alert_epoch = some q.current_epoch) ∧
    (1 ≤ (tick_step db s q).2.2.count AlertKind.critical →
      (tick_step db s q).2.1.alert_sent_critical = true ∧
      (tick_step db s q).2.1.last_alert_epoch = some q.current_epoch) := by
  rcases tick_step_cases db s q with h | ⟨db1, ins, h⟩ <;> rw [h]
  · exact ⟨by simp, fun hf hl => ⟨rfl, hf, hl⟩, by simp⟩
  · have hp := phase_critical_facts db1 s q ins
    exact ⟨hp.1, fun hf hl => ⟨(hp.2.1 hf hl).1, (hp.2.1 hf hl).2, hp.2.2.2⟩,
      fun h1 => ⟨hp.2.2.1 h1, hp.2.2.2⟩⟩

theorem phase_p3_facts (db : Db) (s : MonState) (q : Tick) (ins : EpochRow)
    {r : EpochRow} (hr : read_current_epoch_data db q.current_epoch = some r) :
    ((alert_phase db s q ins).2.2.count AlertKind.missP3 =
      if 10 < ins.miss_counter_events ∧ ins.miss_counter_p3_executed = 0 then 1 else 0) ∧
    (∃ r', read_current_epoch_data (alert_phase db s q ins).1 q.current_epoch = some r' ∧
      r'.miss_counter_p3_executed =
        (if 10 < ins.miss_counter_events ∧ ins.miss_counter_p3_executed = 0 then 1
         else r.miss_counter_p3_executed)) := by
  constructor
  · rw [alert_phase_alerts, List.count_append, List.count_append,
      balance_count_zero _ _ _ _ ⟨by decide, by decide, by decide, by decide⟩,
      signing_count_zero _ _ _ _ _ ⟨by decide, by decide, by decide⟩,
      missparam_count_p3]
    simp
  · rw [alert_phase_db]
    obtain ⟨r2, hr2, h21, h22, h23⟩ := @balance_db_preserves _ _ q.wallet_balance ins _ hr
    obtain ⟨r3, hr3, h31, h32, h33⟩ := @signing_db_preserves _ s q.current_epoch
      q.check_for_aggregate_votes ins.unsigned_oracle_events _ hr2
    obtain ⟨r4, hr4, h4p3, h4p2, h4p1⟩ := @missparam_db_read _ q.current_epoch ins _ hr3
    refine ⟨r4, hr4, ?_⟩
    rw [h4p3, h33, h23]

theorem phase_p2_facts (db : Db) (s : MonState) (q : Tick) (ins : EpochRow)
    {r : EpochRow} (hr : read_current_epoch_data db q.current_epoch = some r) :
    ((alert_phase db s q ins).2.2.count AlertKind.missP2 =
      if 25 < ins.miss_counter_events ∧ ins.miss_counter_p2_executed = 0 then 1 else 0) ∧
    (∃ r', read_current_epoch_data (alert_phase db s q ins).1 q.current_epoch = some r' ∧
      r'.miss_counter_p2_executed =
        (if 25 < ins.miss_counter_events ∧ ins.miss_counter_p2_executed = 0 then 1
         else r.miss_counter_p2_executed)) := by
  constructor
  · rw [alert_phase_alerts, List.count_append, List.count_append,
      balance_count_zero _ _ _ _ ⟨by decide, by decide, by decide, by decide⟩,
      signing_count_zero _ _ _ _ _ ⟨by decide, by decide, by decide⟩,
      missparam_count_p2]
    simp
  · rw [alert_phase_db]
    obtain ⟨r2, hr2, h21, h22, h23⟩ := @balance_db_preserves _ _ q.wallet_balance ins _ hr
    obtain ⟨r3, hr3, h31, h32, h33⟩ := @signing_db_preserves _ s q.current_epoch
      q.check_for_aggregate_votes ins.unsigned_oracle_events _ hr2
    obtain ⟨r4, hr4, h4p3, h4p2, h4p1⟩ := @missparam_db_read _ q.current_epoch ins _ hr3
    refine ⟨r4, hr4, ?_⟩
    rw [h4p2, h32, h22]

theorem phase_p1_facts (db : Db) (s : MonState) (q : Tick) (ins : EpochRow)
    {r : EpochRow} (hr : read_current_epoch_data db q.current_epoch = some r) :
    ((alert_phase db s q ins).2.2.count AlertKind.missP1 =
      if 50 < ins.miss_counter_events ∧ ins.miss_counter_p1_executed = 0 then 1 else 0) ∧
    (∃ r', read_current_epoch_data (alert_phase db s q ins).1 q.current_epoch = some r' ∧
      r'.miss_counter_p1_executed =
        (if 50 < ins.miss_counter_events ∧ ins.miss_counter_p1_executed = 0 then 1
         else r.miss_counter_p1_executed)) := by
  constructor
  · rw [alert_phase_alerts, List.count_append, List.count_append,
      balance_count_zero _ _ _ _ ⟨by decide, by decide, by decide, by decide⟩,
      signing_count_zero _ _ _ _ _ ⟨by decide, by decide, by decide⟩,
      missparam_count_p1]
    simp
  · rw [alert_phase_db]
    obtain ⟨r2, hr2, h21, h22, h23⟩ := @balance_db_preserves _ _ q.wallet_balance ins _ hr
    obtain ⟨r3, hr3, h31, h32, h33⟩ := @signing_db_preserves _ s q.current_epoch
      q.check_for_aggregate_votes ins.unsigned_oracle_events _ hr2
    obtain ⟨r4, hr4, h4p3, h4p2, h4p1⟩ := @missparam_db_read _ q.current_epoch ins _ hr3
    refine ⟨r4, hr4, ?_⟩
    rw [h4p1, h31, h21]

theorem tick_p3_facts (db : Db) (s : MonState) (q : Tick) :
    ((tick_step db s q).2.2.count AlertKind.missP3 ≤ 1) ∧
    ((∃ r, read_current_epoch_data db q.current_epoch = some r ∧
        r.miss_counter_p3_executed = 1) →
      (tick_step db s q).2.2.count AlertKind.missP3 = 0 ∧
      ∃ r', read_current_epoch_data (tick_step db s q).1 q.current_epoch = some r' ∧
        r'.miss_counter_p3_executed = 1) ∧
    (1 ≤ (tick_step db s q).2.2.count AlertKind.missP3 →
      ∃ r', read_current_epoch_data (tick_step db s q).1 q.current_epoch = some r' ∧
        r'.miss_counter_p3_executed = 1) := by
  by_cases hrec : check_if_epoch_is_recorded db q.current_epoch = true
  · have hsome : (read_current_epoch_data db q.current_epoch).isSome := by
      rw [← recorded_eq_isSome]
      exact hrec
    obtain ⟨r0, hr0⟩ := Option.isSome_iff_exists.mp hsome
    rw [tick_step_eq_caseA hrec hr0]
    obtain ⟨r1, hr1, h1p3⟩ : ∃ r1,
        read_current_epoch_data (write_epoch_data db (update_existing_epoch r0 q))
          q.current_epoch = some r1 ∧
        r1.miss_counter_p3_executed = r0.miss_counter_p3_executed := by
      rcases write_db_read (d := update_existing_epoch r0 q) hrec hr0 with hw | hw
      · exact ⟨r0, hw, rfl⟩
      · exact ⟨_, hw, rfl⟩
    have hphase := phase_p3_facts (write_epoch_data db (update_existing_epoch r0 q)) s q
      (update_existing_epoch r0 q) hr1
    refine ⟨?_, ?_, ?_⟩
    · rw [hphase.1]
      exact count_ite_le_one
    · rintro ⟨rr, hrr, hp3⟩
      rw [hr0] at hrr
      injection hrr with hrr
      subst hrr
      have hcond : ¬(10 < (update_existing_epoch r0 q).miss_counter_events ∧
          (update_existing_epoch r0 q).miss_counter_p3_executed = 0) := by
        rintro ⟨-, h0⟩
        rw [show (update_existing_epoch r0 q).miss_counter_p3_executed =
          r0.miss_counter_p3_executed from rfl, hp3] at h0
        exact one_ne_zero h0
      refine ⟨by rw [hphase.1, if_neg hcond], ?_⟩
      obtain ⟨r', hr', hval⟩ := hphase.2
      refine ⟨r', hr', ?_⟩
      rw [hval, if_neg hcond, h1p3, hp3]
    · intro h1
      rw [hphase.1] at h1
      have hcond := one_le_count_ite h1
      obtain ⟨r', hr', hval⟩ := hphase.2
      exact ⟨r', hr', by rw [hval, if_pos hcond]⟩
  · have hrec' : check_if_epoch_is_recorded db q.current_epoch = false := by
      simpa using hrec
    rw [tick_step_eq_caseB hrec']
    have hr1 : read_current_epoch_data
        (write_epoch_data db (new_epoch_row (case_b_prev db q.current_epoch) q))
        q.current_epoch =
        some (new_epoch_row (case_b_prev db q.current_epoch) q) :=
      read_write_not_recorded hrec'
    have hphase := phase_p3_facts
      (write_epoch_data db (new_epoch_row (case_b_prev db q.current_epoch) q)) s q
      (new_epoch_row (case_b_prev db q.current_epoch) q) hr1
    refine ⟨?_, ?_, ?_⟩
    · rw [hphase.1]
      exact count_ite_le_one
    · rintro ⟨rr, hrr, -⟩
      rw [read_of_not_recorded hrec'] at hrr
      cases hrr
    · intro h1
      rw [hphase.1] at h1
      have hcond := one_le_count_ite h1
      obtain ⟨r', hr', hval⟩ := hphase.2
      exact ⟨r', hr', by rw [hval, if_pos hcond]⟩

theorem tick_p2_facts (db : Db) (s : MonState) (q : Tick) :
    ((tick_step db s q).2.2.count AlertKind.missP2 ≤ 1) ∧
    ((∃ r, read_current_epoch_data db q.current_epoch = some r ∧
        r.miss_counter_p2_executed = 1) →
      (tick_step db s q).2.2.count AlertKind.missP2 = 0 ∧
      ∃ r', read_current_epoch_data (tick_step db s q).1 q.current_epoch = some r' ∧
        r'.miss_counter_p2_executed = 1) ∧
    (1 ≤ (tick_step db s q).2.2.count AlertKind.missP2 →
      ∃ r', read_current_epoch_data (tick_step db s q).1 q.current_epoch = some r' ∧
        r'.miss_counter_p2_executed = 1) := by
  by_cases hrec : check_if_epoch_is_recorded db q.current_epoch = true
  · have hsome : (read_current_epoch_data db q.current_epoch).isSome := by
      rw [← recorded_eq_isSome]
      exact hrec
    obtain ⟨r0, hr0⟩ := Option.isSome_iff_exists.mp hsome
    rw [tick_step_eq_caseA hrec hr0]
    obtain ⟨r1, hr1, h1p2⟩ : ∃ r1,
        read_current_epoch_data (write_epoch_data db (update_existing_epoch r0 q))
          q.current_epoch = some r1 ∧
        r1.miss_counter_p2_executed = r0.miss_counter_p2_executed := by
      rcases write_db_read (d := update_existing_epoch r0 q) hrec hr0 with hw | hw
      · exact ⟨r0, hw, rfl⟩
      · exact ⟨_, hw, rfl⟩
    have hphase := phase_p2_facts (write_epoch_data db (update_existing_epoch r0 q)) s q
      (update_existing_epoch r0 q) hr1
    refine ⟨?_, ?_, ?_⟩
    · rw [hphase.1]
      exact count_ite_le_one
    · rintro ⟨rr, hrr, hp2⟩
      rw [hr0] at hrr
      injection hrr with hrr
      subst hrr
      have hcond : ¬(25 < (update_existing_epoch r0 q).miss_counter_events ∧
          (update_existing_epoch r0 q).miss_counter_p2_executed = 0) := by
        rintro ⟨-, h0⟩
        rw [show (update_existing_epoch r0 q).miss_counter_p2_executed =
          r0.miss_counter_p2_executed from rfl, hp2] at h0
        exact one_ne_zero h0
      refine ⟨by rw [hphase.1, if_neg hcond], ?_⟩
      obtain ⟨r', hr', hval⟩ := hphase.2
      refine ⟨r', hr', ?_⟩
      rw [hval, if_neg hcond, h1p2, hp2]
    · intro h1
      rw [hphase.1] at h1
      have hcond := one_le_count_ite h1
      obtain ⟨r', hr', hval⟩ := hphase.2
      exact ⟨r', hr', by rw [hval, if_pos hcond]⟩
  · have hrec' : check_if_epoch_is_recorded db q.current_epoch = false := by
      simpa using hrec
    rw [tick_step_eq_caseB hrec']
    have hr1 : read_current_epoch_data
        (write_epoch_data db (new_epoch_row (case_b_prev db q.current_epoch) q))
        q.current_epoch =
        some (new_epoch_row (case_b_prev db q.current_epoch) q) :=
      read_write_not_recorded hrec'
    have hphase := phase_p2_facts
      (write_epoch_data db (new_epoch_row (case_b_prev db q.current_epoch) q)) s q
      (new_epoch_row (case_b_prev db q.current_epoch) q) hr1
    refine ⟨?_, ?_, ?_⟩
    · rw [hphase.1]
      exact count_ite_le_one
    · rintro ⟨rr, hrr, -⟩
      rw [read_of_not_recorded hrec'] at hrr
      cases hrr
    · intro h1
      rw [hphase.1] at h1
      have hcond := one_le_count_ite h1
      obtain ⟨r', hr', hval⟩ := hphase.2
      exact ⟨r', hr', by rw [hval, if_pos hcond]⟩

theorem tick_p1_facts (db : Db) (s : MonState) (q : Tick) :
    ((tick_step db s q).2.2.count AlertKind.missP1 ≤ 1) ∧
    ((∃ r, read_current_epoch_data db q.current_epoch = some r ∧
        r.miss_counter_p1_executed = 1) →
      (tick_step db s q).2.2.count AlertKind.missP1 = 0 ∧
      ∃ r', read_current_epoch_data (tick_step db s q).1 q.current_epoch = some r' ∧
        r'.miss_counter_p1_executed = 1) ∧
    (1 ≤ (tick_step db s q).2.2.count AlertKind.missP1 →
      ∃ r', read_current_epoch_data (tick_step db s q).1 q.current_epoch = some r' ∧
        r'.miss_counter_p1_executed = 1) := by
  by_cases hrec : check_if_epoch_is_recorded db q.current_epoch = true
  · have hsome : (read_current_epoch_data db q.current_epoch).isSome := by
      rw [← recorded_eq_isSome]
      exact hrec
    obtain ⟨r0, hr0⟩ := Option.isSome_iff_exists.mp hsome
    rw [tick_step_eq_caseA hrec hr0]
    obtain ⟨r1, hr1, h1p1⟩ : ∃ r1,
        read_current_epoch_data (write_epoch_data db (update_existing_epoch r0 q))
          q.current_epoch = some r1 ∧
        r1.miss_counter_p1_executed = r0.miss_counter_p1_executed := by
      rcases write_db_read (d := update_existing_epoch r0 q) hrec hr0 with hw | hw
      · exact ⟨r0, hw, rfl⟩
      · exact ⟨_, hw, rfl⟩
    have hphase := phase_p1_facts (write_epoch_data db (update_existing_epoch r0 q)) s q
      (update_existing_epoch r0 q) hr1
    refine ⟨?_, ?_, ?_⟩
    · rw [hphase.1]
      exact count_ite_le_one
    · rintro ⟨rr, hrr, hp1⟩
      rw [hr0] at hrr
      injection hrr with hrr
      subst hrr
      have hcond : ¬(50 < (update_existing_epoch r0 q).miss_counter_events ∧
          (update_existing_epoch r0 q).miss_counter_p1_executed = 0) := by
        rintro ⟨-, h0⟩
        rw [show (update_existing_epoch r0 q).miss_counter_p1_executed =
          r0.miss_counter_p1_executed from rfl, hp1] at h0
        exact one_ne_zero h0
      refine ⟨by rw [hphase.1, if_neg hcond], ?_⟩
      obtain ⟨r', hr', hval⟩ := hphase.2
      refine ⟨r', hr', ?_⟩
      rw [hval, if_neg hcond, h1p1, hp1]
    · intro h1
      rw [hphase.1] at h1
      have hcond := one_le_count_ite h1
      obtain ⟨r', hr', hval⟩ := hphase.2
      exact ⟨r', hr', by rw [hval, if_pos hcond]⟩
  · have hrec' : check_if_epoch_is_recorded db q.current_epoch = false := by
      simpa using hrec
    rw [tick_step_eq_caseB hrec']
    have hr1 : read_current_epoch_data
        (write_epoch_data db (new_epoch_row (case_b_prev db q.current_epoch) q))
        q.current_epoch =
        some (new_epoch_row (case_b_prev db q.current_epoch) q) :=
      read_write_not_recorded hrec'
    have hphase := phase_p1_facts
      (write_epoch_data db (new_epoch_row (case_b_prev db q.current_epoch) q)) s q
      (new_epoch_row (case_b_prev db q.current_epoch) q) hr1
    refine ⟨?_, ?_, ?_⟩
    · rw [hphase.1]
      exact count_ite_le_one
    · rintro ⟨rr, hrr, -⟩
      rw [read_of_not_recorded hrec'] at hrr
      cases hrr
    · intro h1
      rw [hphase.1] at h1
      have hcond := one_le_count_ite h1
      obtain ⟨r', hr', hval⟩ := hphase.2
      exact ⟨r', hr', by rw [hval, if_pos hcond]⟩

theorem read_overwrite_any (db : Db) (l : Int) (f : String) (v : Int) {e : Int}
    {r : EpochRow} (hr : read_current_epoch_data db e = some r) :
    read_current_epoch_data (overwrite_ok db l f v) e = some r ∨
    read_current_epoch_data (overwrite_ok db l f v) e = some (set_column f v r) := by
  unfold overwrite_ok
  rw [read_map_keyinv _ _ _ (fun r => by split <;> simp [set_column_key]), hr]
  simp only [Option.map_some']
  split
  · exact Or.inr rfl
  · exact Or.inl rfl

theorem api_db_preserves {db : Db} {s : MonState} {l : Int} {b : Bool} {e : Int}
    {r : EpochRow} (hr : read_current_epoch_data db e = some r) :
    ∃ r', read_current_epoch_data (process_api_not_working db s l b).1 e = some r' ∧
      r'.miss_counter_p1_executed = r.miss_counter_p1_executed ∧
      r'.miss_counter_p2_executed = r.miss_counter_p2_executed ∧
      r'.miss_counter_p3_executed = r.miss_counter_p3_executed := by
  rcases read_overwrite_any db l "api_cons_miss"
      (if b then (epoch_reset s l).api_consecutive_misses + 1 else 0) hr with h | h
  · exact ⟨r, h, rfl, rfl, rfl⟩
  · exact ⟨_, h, by simp [set_column_api_eq]⟩

theorem mem_api_alerts {db : Db} {s : MonState} {l : Int} {b : Bool} {k : AlertKind}
    (hk : k ∈ (process_api_not_working db s l b).2.2) :
    k = AlertKind.apiWorkingAgain ∨ k = AlertKind.apiNotWorking := by
  simp only [process_api_not_working, List.mem_append] at hk
  rcases hk with hk | hk <;> (split at hk <;> simp_all)

theorem api_count_zero (db : Db) (s : MonState) (l : Int) (b : Bool) {K : AlertKind}
    (hK : K ≠ AlertKind.apiWorkingAgain ∧ K ≠ AlertKind.apiNotWorking) :
    (process_api_not_working db s l b).2.2.count K = 0 :=
  List.count_eq_zero.mpr fun h => by
    rcases mem_api_alerts h with rfl | rfl <;> simp_all

theorem latest_map_keyinv (db : Db) (g : EpochRow → EpochRow)
    (hg : ∀ r, (g r).slash_epoch = r.slash_epoch) :
    read_last_recorded_epoch (db.map g) = read_last_recorded_epoch db := by
  unfold read_last_recorded_epoch
  rw [List.map_map]
  have hmap : db.map (EpochRow.slash_epoch ∘ g) = db.map EpochRow.slash_epoch := by
    induction db with
    | nil => rfl
    | cons r rest ih =>
      simp only [List.map_cons, ih, Function.comp_apply]
      rw [hg r]
  rw [hmap]

theorem latest_overwrite (db : Db) (l : Int) (f : String) (v : Int) :
    read_last_recorded_epoch (overwrite_ok db l f v) = read_last_recorded_epoch db := by
  unfold overwrite_ok
  apply latest_map_keyinv
  intro r
  split <;> simp [set_column_key]

theorem latest_write {db : Db} {d : EpochRow} {e : Int}
    (hd : d.slash_epoch = e) (h : read_last_recorded_epoch db = some e) :
    read_last_recorded_epoch (write_epoch_data db d) = some e := by
  unfold write_epoch_data
  split
  · rw [latest_map_keyinv]
    · exact h
    · intro r
      split <;> simp [updateRowFromData_key]
  · unfold read_last_recorded_epoch at h ⊢
    rw [List.map_append]
    cases hm : db.map EpochRow.slash_epoch with
    | nil =>
      rw [hm] at h
      simp at h
    | cons x xs =>
      rw [hm] at h
      injection h with h
      simp only [List.map_cons, List.map_nil, List.cons_append]
      show some ((xs ++ [d.slash_epoch]).foldl max x) = some e
      rw [List.foldl_append]
      simp [h, hd]

theorem latest_balance (db : Db) (e bal : Int) (ins : EpochRow) :
    read_last_recorded_epoch (process_balance_alerts db e bal ins).1 =
      read_last_recorded_epoch db := by
  simp only [process_balance_alerts]
  repeat' split
  all_goals simp [latest_overwrite]

theorem latest_signing (db : Db) (s : MonState) (e : Int) (sg : Bool) (tm : Int) :
    read_last_recorded_epoch (process_signing_alerts db s e sg tm).1 =
      read_last_recorded_epoch db :=
  latest_overwrite db e "consecutive_misses" _

theorem latest_missparam (db : Db) (e : Int) (ins : EpochRow) :
    read_last_recorded_epoch (process_miss_parameter_alerts db e ins).1 =
      read_last_recorded_epoch db := by
  simp only [process_miss_parameter_alerts]
  repeat' split
  all_goals simp [latest_overwrite]

theorem latest_phase (db : Db) (s : MonState) (q : Tick) (ins : EpochRow) :
    read_last_recorded_epoch (alert_phase db s q ins).1 =
      read_last_recorded_epoch db := by
  rw [alert_phase_db, latest_missparam, latest_signing, latest_balance]

theorem latest_api (db : Db) (s : MonState) (l : Int) (b : Bool) :
    read_last_recorded_epoch (process_api_not_working db s l b).1 =
      read_last_recorded_epoch db :=
  latest_overwrite db l "api_cons_miss" _

theorem latest_tick {db : Db} {s : MonState} {q : Tick} {e : Int}
    (hq : q.current_epoch = e) (h : read_last_recorded_epoch db = some e) :
    read_last_recorded_epoch (tick_step db s q).1 = some e := by
  by_cases hrec : check_if_epoch_is_recorded db q.current_epoch = true
  · have hsome : (read_current_epoch_data db q.current_epoch).isSome := by
      rw [← recorded_eq_isSome]
      exact hrec
    obtain ⟨r0, hr0⟩ := Option.isSome_iff_exists.mp hsome
    rw [tick_step_eq_caseA hrec hr0, latest_phase]
    exact latest_write hq h
  · rw [tick_step_eq_caseB (by simpa using hrec), latest_phase]
    exact latest_write hq h

theorem loop_iter_eq_none {db : Db} {s : MonState} {q : Tick}
    (h : read_last_recorded_epoch db = none) : loop_iter db s q = (db, s, []) := by
  unfold loop_iter
  rw [h]

theorem loop_iter_eq_some {db : Db} {s : MonState} {q : Tick} {f : Int}
    (h : read_last_recorded_epoch db = some f) :
    loop_iter db s q =
      ((tick_step (process_api_not_working db s f false).1
          (process_api_not_working db s f false).2.1 q).1,
       (tick_step (process_api_not_working db s f false).1
          (process_api_not_working db s f false).2.1 q).2.1,
       (process_api_not_working db s f false).2.2 ++
         (tick_step (process_api_not_working db s f false).1
            (process_api_not_working db s f false).2.1 q).2.2) := by
  unfold loop_iter
  rw [h]

theorem latest_loop {db : Db} {s : MonState} {q : Tick} {e : Int}
    (hq : q.current_epoch = e) (h : read_last_recorded_epoch db = some e) :
    read_last_recorded_epoch (loop_iter db s q).1 = some e := by
  rw [loop_iter_eq_some h]
  exact latest_tick hq (by rw [latest_api]; exact h)

theorem loop_total_facts (db : Db) (s : MonState) (q : Tick) :
    ((loop_iter db s q).2.2.count AlertKind.total ≤ 1) ∧
    (read_last_recorded_epoch db = some q.current_epoch →
      s.alert_sent_total = true → s.last_alert_epoch = some q.current_epoch →
      (loop_iter db s q).2.2.count AlertKind.total = 0 ∧
      (loop_iter db s q).2.1.alert_sent_total = true ∧
      (loop_iter db s q).2.1.last_alert_epoch = some q.current_epoch) ∧
    (1 ≤ (loop_iter db s q).2.2.count AlertKind.total →
      (loop_iter db s q).2.1.alert_sent_total = true ∧
      (loop_iter db s q).2.1.last_alert_epoch = some q.current_epoch) := by
  cases hlat : read_last_recorded_epoch db with
  | none =>
    rw [loop_iter_eq_none hlat]
    exact ⟨by simp, fun _ hf hl => ⟨rfl, hf, hl⟩, by simp⟩
  | some f =>
    rw [loop_iter_eq_some hlat]
    have hapi := api_count_zero db s f false (K := AlertKind.total) ⟨by decide, by decide⟩
    have htick := tick_total_facts (process_api_not_working db s f false).1
      (process_api_not_working db s f false).2.1 q
    refine ⟨?_, ?_, ?_⟩
    · rw [List.count_append, hapi]
      simpa using htick.1
    · intro hJ hf hl
      have hfe : f = q.current_epoch := by
        injection hJ
      subst hfe
      have hfA : (process_api_not_working db s q.current_epoch false).2.1.alert_sent_total = true := by
        rw [api_healthy_step_spec db s q.current_epoch hl]
        exact hf
      have hlA : (process_api_not_working db s q.current_epoch false).2.1.last_alert_epoch = some q.current_epoch := by
        rw [api_healthy_step_spec db s q.current_epoch hl]
        exact hl
      obtain ⟨h0, hflag, hlast⟩ := htick.2.1 hfA hlA
      exact ⟨by rw [List.count_append, hapi, h0], hflag, hlast⟩
    · intro h1
      rw [List.count_append, hapi] at h1
      simp only [Nat.zero_add] at h1
      exact htick.2.2 h1

theorem loop_consecutive_facts (db : Db) (s : MonState) (q : Tick) :
    ((loop_iter db s q).2.2.count AlertKind.consecutive ≤ 1) ∧
    (read_last_recorded_epoch db = some q.current_epoch →
      s.alert_sent_consecutive = true → s.last_alert_epoch = some q.current_epoch →
      (loop_iter db s q).2.2.count AlertKind.consecutive = 0 ∧
      (loop_iter db s q).2.1.alert_sent_consecutive = true ∧
      (loop_iter db s q).2.1.last_alert_epoch = some q.current_epoch) ∧
    (1 ≤ (loop_iter db s q).2.2.count AlertKind.consecutive →
      (loop_iter db s q).2.1.alert_sent_consecutive = true ∧
      (loop_iter db s q).2.1.last_alert_epoch = some q.current_epoch) := by
  cases hlat : read_last_recorded_epoch db with
  | none =>
    rw [loop_iter_eq_none hlat]
    exact ⟨by simp, fun _ hf hl => ⟨rfl, hf, hl⟩, by simp⟩
  | some f =>
    rw [loop_iter_eq_some hlat]
    have hapi := api_count_zero db s f false (K := AlertKind.consecutive)
      ⟨by decide, by decide⟩
    have htick := tick_consecutive_facts (process_api_not_working db s f false).1
      (process_api_not_working db s f false).2.1 q
    refine ⟨?_, ?_, ?_⟩
    · rw [List.count_append, hapi]
      simpa using htick.1
    · intro hJ hf hl
      have hfe : f = q.current_epoch := by
        injection hJ
      subst hfe
      have hfA : (process_api_not_working db s q.current_epoch false).2.1.alert_sent_consecutive =
          true := by
        rw [api_healthy_step_spec db s q.current_epoch hl]
        exact hf
      have hlA : (process_api_not_working db s q.current_epoch false).2.1.last_alert_epoch = some q.current_epoch := by
        rw [api_healthy_step_spec db s q.current_epoch hl]
        exact hl
      obtain ⟨h0, hflag, hlast⟩ := htick.2.1 hfA hlA
      exact ⟨by rw [List.count_append, hapi, h0], hflag, hlast⟩
    · intro h1
      rw [List.count_append, hapi] at h1
      simp only [Nat.zero_add] at h1
      exact htick.2.2 h1

theorem loop_critical_facts (db : Db) (s : MonState) (q : Tick) :
    ((loop_iter db s q).2.2.count AlertKind.critical ≤ 1) ∧
    (read_last_recorded_epoch db = some q.current_epoch →
      s.alert_sent_critical = true → s.last_alert_epoch = some q.current_epoch →
      (loop_iter db s q).2.2.count AlertKind.critical = 0 ∧
      (loop_iter db s q).2.1.alert_sent_critical = true ∧
      (loop_iter db s q).2.1.last_alert_epoch = some q.current_epoch) ∧
    (1 ≤ (loop_iter db s q).2.2.count AlertKind.critical →
      (loop_iter db s q).2.1.alert_sent_critical = true ∧
      (loop_iter db s q).2.1.last_alert_epoch = some q.current_epoch) := by
  cases hlat : read_last_recorded_epoch db with
  | none =>
    rw [loop_iter_eq_none hlat]
    exact ⟨by simp, fun _ hf hl => ⟨rfl, hf, hl⟩, by simp⟩
  | some f =>
    rw [loop_iter_eq_some hlat]
    have hapi := api_count_zero db s f false (K := AlertKind.critical)
      ⟨by decide, by decide⟩
    have htick := tick_critical_facts (process_api_not_working db s f false).1
      (process_api_not_working db s f false).2.1 q
    refine ⟨?_, ?_, ?_⟩
    · rw [List.count_append, hapi]
      simpa using htick.1
    · intro hJ hf hl
      have hfe : f = q.current_epoch := by
        injection hJ
      subst hfe
      have hfA : (process_api_not_working db s q.current_epoch false).2.1.alert_sent_critical =
          true := by
        rw [api_healthy_step_spec db s q.current_epoch hl]
        exact hf
      have hlA : (process_api_not_working db s q.current_epoch false).2.1.last_alert_epoch = some q.current_epoch := by
        rw [api_healthy_step_spec db s q.current_epoch hl]
        exact hl
      obtain ⟨h0, hflag, hlast⟩ := htick.2.1 hfA hlA
      exact ⟨by rw [List.count_append, hapi, h0], hflag, hlast⟩
    · intro h1
      rw [List.count_append, hapi] at h1
      simp only [Nat.zero_add] at h1
      exact htick.2.2 h1

theorem loop_p3_facts (db : Db) (s : MonState) (q : Tick) :
    ((loop_iter db s q).2.2.count AlertKind.missP3 ≤ 1) ∧
    ((∃ r, read_current_epoch_data db q.current_epoch = some r ∧
        r.miss_counter_p3_executed = 1) →
      (loop_iter db s q).2.2.count AlertKind.missP3 = 0 ∧
      ∃ r', read_current_epoch_data (loop_iter db s q).1 q.current_epoch = some r' ∧
        r'.miss_counter_p3_executed = 1) ∧
    (1 ≤ (loop_iter db s q).2.2.count AlertKind.missP3 →
      ∃ r', read_current_epoch_data (loop_iter db s q).1 q.current_epoch = some r' ∧
        r'.miss_counter_p3_executed = 1) := by
  cases hlat : read_last_recorded_epoch db with
  | none =>
    rw [loop_iter_eq_none hlat]
    exact ⟨by simp, fun h => ⟨rfl, h⟩, by simp⟩
  | some f =>
    rw [loop_iter_eq_some hlat]
    have hapi := api_count_zero db s f false (K := AlertKind.missP3) ⟨by decide, by decide⟩
    have htick := tick_p3_facts (process_api_not_working db s f false).1
      (process_api_not_working db s f false).2.1 q
    refine ⟨?_, ?_, ?_⟩
    · rw [List.count_append, hapi]
      simpa using htick.1
    · rintro ⟨r, hr, hp⟩
      obtain ⟨r1, hr1, hp1, hp2, hp3⟩ :=
        api_db_preserves (s := s) (l := f) (b := false) hr
      obtain ⟨h0, hEx⟩ := htick.2.1 ⟨r1, hr1, hp3.trans hp⟩
      exact ⟨by rw [List.count_append, hapi, h0], hEx⟩
    · intro h1
      rw [List.count_append, hapi] at h1
      simp only [Nat.zero_add] at h1
      exact htick.2.2 h1

theorem loop_p2_facts (db : Db) (s : MonState) (q : Tick) :
    ((loop_iter db s q).2.2.count AlertKind.missP2 ≤ 1) ∧
    ((∃ r, read_current_epoch_data db q.current_epoch = some r ∧
        r.miss_counter_p2_executed = 1) →
      (loop_iter db s q).2.2.count AlertKind.missP2 = 0 ∧
      ∃ r', read_current_epoch_data (loop_iter db s q).1 q.current_epoch = some r' ∧
        r'.miss_counter_p2_executed = 1) ∧
    (1 ≤ (loop_iter db s q).2.2.count AlertKind.missP2 →
      ∃ r', read_current_epoch_data (loop_iter db s q).1 q.current_epoch = some r' ∧
        r'.miss_counter_p2_executed = 1) := by
  cases hlat : read_last_recorded_epoch db with
  | none =>
    rw [loop_iter_eq_none hlat]
    exact ⟨by simp, fun h => ⟨rfl, h⟩, by simp⟩
  | some f =>
    rw [loop_iter_eq_some hlat]
    have hapi := api_count_zero db s f false (K := AlertKind.missP2) ⟨by decide, by decide⟩
    have htick := tick_p2_facts (process_api_not_working db s f false).1
      (process_api_not_working db s f false).2.1 q
    refine ⟨?_, ?_, ?_⟩
    · rw [List.count_append, hapi]
      simpa using htick.1
    · rintro ⟨r, hr, hp⟩
      obtain ⟨r1, hr1, hp1, hp2, hp3⟩ :=
        api_db_preserves (s := s) (l := f) (b := false) hr
      obtain ⟨h0, hEx⟩ := htick.2.1 ⟨r1, hr1, hp2.trans hp⟩
      exact ⟨by rw [List.count_append, hapi, h0], hEx⟩
    · intro h1
      rw [List.count_append, hapi] at h1
      simp only [Nat.zero_add] at h1
      exact htick.2.2 h1

theorem loop_p1_facts (db : Db) (s : MonState) (q : Tick) :
    ((loop_iter db s q).2.2.count AlertKind.missP1 ≤ 1) ∧
    ((∃ r, read_current_epoch_data db q.current_epoch = some r ∧
        r.miss_counter_p1_executed = 1) →
      (loop_iter db s q).2.2.count AlertKind.missP1 = 0 ∧
      ∃ r', read_current_epoch_data (loop_iter db s q).1 q.current_epoch = some r' ∧
        r'.miss_counter_p1_executed = 1) ∧
    (1 ≤ (loop_iter db s q).2.2.count AlertKind.missP1 →
      ∃ r', read_current_epoch_data (loop_iter db s q).1 q.current_epoch = some r' ∧
        r'.miss_counter_p1_executed = 1) := by
  cases hlat : read_last_recorded_epoch db with
  | none =>
    rw [loop_iter_eq_none hlat]
    exact ⟨by simp, fun h => ⟨rfl, h⟩, by simp⟩
  | some f =>
    rw [loop_iter_eq_some hlat]
    have hapi := api_count_zero db s f false (K := AlertKind.missP1) ⟨by decide, by decide⟩
    have htick := tick_p1_facts (process_api_not_working db s f false).1
      (process_api_not_working db s f false).2.1 q
    refine ⟨?_, ?_, ?_⟩
    · rw [List.count_append, hapi]
      simpa using htick.1
    · rintro ⟨r, hr, hp⟩
      obtain ⟨r1, hr1, hp1, hp2, hp3⟩ :=
        api_db_preserves (s := s) (l := f) (b := false) hr
      obtain ⟨h0, hEx⟩ := htick.2.1 ⟨r1, hr1, hp1.trans hp⟩
      exact ⟨by rw [List.count_append, hapi, h0], hEx⟩
    · intro h1
      rw [List.count_append, hapi] at h1
      simp only [Nat.zero_add] at h1
      exact htick.2.2 h1

theorem run_loop_count_zero (K : AlertKind) (e : Int) (J : Db → Prop)
    (I : Db → MonState → Prop)
    (hJstep : ∀ db s q, q.current_epoch = e → J db → J (loop_iter db s q).1)
    (hpers : ∀ db s q, q.current_epoch = e → J db → I db s →
      (loop_iter db s q).2.2.count K = 0 ∧
      I (loop_iter db s q).1 (loop_iter db s q).2.1) :
    ∀ (qs : List Tick) (db : Db) (s : MonState),
      (∀ q ∈ qs, q.current_epoch = e) → J db → I db s →
      (run_loop db s qs).2.2.count K = 0 := by
  intro qs
  induction qs with
  | nil => intro db s _ _ _; rfl
  | cons q qs ih =>
    intro db s hq hJ hI
    have hqe := hq q (List.mem_cons_self q qs)
    obtain ⟨h0, hI2⟩ := hpers db s q hqe hJ hI
    have hrest := ih (loop_iter db s q).1 (loop_iter db s q).2.1
      (fun p hp => hq p (List.mem_cons_of_mem q hp)) (hJstep db s q hqe hJ) hI2
    show ((loop_iter db s q).2.2 ++
      (run_loop (loop_iter db s q).1 (loop_iter db s q).2.1 qs).2.2).count K = 0
    rw [List.count_append, h0, hrest]

theorem run_loop_count_le_one (K : AlertKind) (e : Int) (J : Db → Prop)
    (I : Db → MonState → Prop)
    (hJstep : ∀ db s q, q.current_epoch = e → J db → J (loop_iter db s q).1)
    (honce : ∀ db s q, q.current_epoch = e → (loop_iter db s q).2.2.count K ≤ 1)
    (hpers : ∀ db s q, q.current_epoch = e → J db → I db s →
      (loop_iter db s q).2.2.count K = 0 ∧
      I (loop_iter db s q).1 (loop_iter db s q).2.1)
    (hest : ∀ db s q, q.current_epoch = e → J db →
      1 ≤ (loop_iter db s q).2.2.count K →
      I (loop_iter db s q).1 (loop_iter db s q).2.1) :
    ∀ (qs : List Tick) (db : Db) (s : MonState),
      (∀ q ∈ qs, q.current_epoch = e) → J db →
      (run_loop db s qs).2.2.count K ≤ 1 := by
  intro qs
  induction qs with
  | nil => intro db s _ _; simp [run_loop]
  | cons q qs ih =>
    intro db s hq hJ
    have hqe := hq q (List.mem_cons_self q qs)
    have hq2 : ∀ p ∈ qs, p.current_epoch = e :=
      fun p hp => hq p (List.mem_cons_of_mem q hp)
    have hJ2 := hJstep db s q hqe hJ
    show ((loop_iter db s q).2.2 ++
      (run_loop (loop_iter db s q).1 (loop_iter db s q).2.1 qs).2.2).count K ≤ 1
    rw [List.count_append]
    rcases Nat.eq_zero_or_pos ((loop_iter db s q).2.2.count K) with h0 | h1
    · rw [h0]
      simpa using ih (loop_iter db s q).1 (loop_iter db s q).2.1 hq2 hJ2
    · have hI2 := hest db s q hqe hJ h1
      have hrest := run_loop_count_zero K e J I hJstep hpers qs (loop_iter db s q).1
        (loop_iter db s q).2.1 hq2 hJ2 hI2
      rw [hrest]
      simpa using honce db s q hqe

/-- Claim C6 counterexample: the monitoring loop re-reads the stored maximum
epoch each iteration and runs the healthy-path API bookkeeping against it
(main.py:544-558); its epoch check (main.py:311-313) clears every `alert_sent`
flag whenever the remembered alert epoch differs from that maximum.  With an
epoch-1 row stored alongside the epoch-0 row being processed, the flags are
cleared on every iteration, so two identical unsigned epoch-0 ticks emit the
total-misses alert twice — refuting the claim that each alert kind fires at
most once per epoch. -/
theorem signing_alert_repeat_counterexample :
    (∀ q ∈ List.replicate 2 (⟨0, false, 0, 5000000⟩ : Tick), q.current_epoch = 0) ∧
    (run_loop [(⟨0, 0, 0, 0, 0, 9, 5000000, 0, 0, 0, 0⟩ : EpochRow),
        (⟨1, 0, 0, 0, 0, 0, 5000000, 0, 0, 0, 0⟩ : EpochRow)]
      mon_init (List.replicate 2 (⟨0, false, 0, 5000000⟩ : Tick))).2.2.count
        AlertKind.total = 2 := by
  decide

/-- Claim C6 (amended): over the monitoring loop — each iteration reads the
stored maximum `slash_epoch`, runs the healthy-path API bookkeeping against
it, then performs the data-collection and alert step — the three
miss-parameter alerts fire at most once per epoch unconditionally (their
dedup latch lives in the stored row), and the three signing alerts
(consecutive, total, critical) fire at most once per epoch provided the
stored maximum epoch equals the epoch being processed; when a higher epoch
is stored, the per-iteration epoch check clears the in-memory `alert_sent`
latches and the signing alerts can repeat. -/
theorem alerts_at_most_once_per_epoch_amended (e : Int) (db : Db) (s : MonState)
    (qs : List Tick) (he : ∀ q ∈ qs, q.current_epoch = e) :
    ((run_loop db s qs).2.2.count AlertKind.missP1 ≤ 1 ∧
     (run_loop db s qs).2.2.count AlertKind.missP2 ≤ 1 ∧
     (run_loop db s qs).2.2.count AlertKind.missP3 ≤ 1) ∧
    (read_last_recorded_epoch db = some e →
      (run_loop db s qs).2.2.count AlertKind.consecutive ≤ 1 ∧
      (run_loop db s qs).2.2.count AlertKind.total ≤ 1 ∧
      (run_loop db s qs).2.2.count AlertKind.critical ≤ 1) := by
  refine ⟨⟨?_, ?_, ?_⟩, fun hlat => ⟨?_, ?_, ?_⟩⟩
  · exact run_loop_count_le_one AlertKind.missP1 e (fun _ => True)
      (fun d _ => ∃ r, read_current_epoch_data d e = some r ∧
        r.miss_counter_p1_executed = 1)
      (fun _ _ _ _ _ => trivial)
      (fun d t p _ => (loop_p1_facts d t p).1)
      (fun d t p hp _ hI => by
        have h := (loop_p1_facts d t p).2.1
        rw [hp] at h
        exact h hI)
      (fun d t p hp _ h1 => by
        have h := (loop_p1_facts d t p).2.2
        rw [hp] at h
        exact h h1)
      qs db s he trivial
  · exact run_loop_count_le_one AlertKind.missP2 e (fun _ => True)
      (fun d _ => ∃ r, read_current_epoch_data d e = some r ∧
        r.miss_counter_p2_executed = 1)
      (fun _ _ _ _ _ => trivial)
      (fun d t p _ => (loop_p2_facts d t p).1)
      (fun d t p hp _ hI => by
        have h := (loop_p2_facts d t p).2.1
        rw [hp] at h
        exact h hI)
      (fun d t p hp _ h1 => by
        have h := (loop_p2_facts d t p).2.2
        rw [hp] at h
        exact h h1)
      qs db s he trivial
  · exact run_loop_count_le_one AlertKind.missP3 e (fun _ => True)
      (fun d _ => ∃ r, read_current_epoch_data d e = some r ∧
        r.miss_counter_p3_executed = 1)
      (fun _ _ _ _ _ => trivial)
      (fun d t p _ => (loop_p3_facts d t p).1)
      (fun d t p hp _ hI => by
        have h := (loop_p3_facts d t p).2.1
        rw [hp] at h
        exact h hI)
      (fun d t p hp _ h1 => by
        have h := (loop_p3_facts d t p).2.2
        rw [hp] at h
        exact h h1)
      qs db s he trivial
  · exact run_loop_count_le_one AlertKind.consecutive e
      (fun d => read_last_recorded_epoch d = some e)
      (fun _ t => t.alert_sent_consecutive = true ∧ t.last_alert_epoch = some e)
      (fun d t p hp hJ => latest_loop hp hJ)
      (fun d t p _ => (loop_consecutive_facts d t p).1)
      (fun d t p hp hJ hI => by
        have h := (loop_consecutive_facts d t p).2.1
        rw [hp] at h
        obtain ⟨h0, hf, hl⟩ := h hJ hI.1 hI.2
        exact ⟨h0, hf, hl⟩)
      (fun d t p hp _ h1 => by
        have h := (loop_consecutive_facts d t p).2.2
        rw [hp] at h
        exact h h1)
      qs db s he hlat
  · exact run_loop_count_le_one AlertKind.total e
      (fun d => read_last_recorded_epoch d = some e)
      (fun _ t => t.alert_sent_total = true ∧ t.last_alert_epoch = some e)
      (fun d t p hp hJ => latest_loop hp hJ)
      (fun d t p _ => (loop_total_facts d t p).1)
      (fun d t p hp hJ hI => by
        have h := (loop_total_facts d t p).2.1
        rw [hp] at h
        obtain ⟨h0, hf, hl⟩ := h hJ hI.1 hI.2
        exact ⟨h0, hf, hl⟩)
      (fun d t p hp _ h1 => by
        have h := (loop_total_facts d t p).2.2
        rw [hp] at h
        exact h h1)
      qs db s he hlat
  · exact run_loop_count_le_one AlertKind.critical e
      (fun d => read_last_recorded_epoch d = some e)
      (fun _ t => t.alert_sent_critical = true ∧ t.last_alert_epoch = some e)
      (fun d t p hp hJ => latest_loop hp hJ)
      (fun d t p _ => (loop_critical_facts d t p).1)
      (fun d t p hp hJ hI => by
        have h := (loop_critical_facts d t p).2.1
        rw [hp] at h
        obtain ⟨h0, hf, hl⟩ := h hJ hI.1 hI.2
        exact ⟨h0, hf, hl⟩)
      (fun d t p hp _ h1 => by
        have h := (loop_critical_facts d t p).2.2
        rw [hp] at h
        exact h h1)
      qs db s he hlat

/-- Claim C6 witness: two identical unsigned epoch-0 ticks over a store whose
only row is the epoch-0 row (unsigned count already 9): the stored maximum
epoch is 0, so both the miss-parameter bounds and the signing bounds apply,
and indeed the total-misses alert fires exactly once across the two
iterations. -/
theorem alerts_at_most_once_per_epoch_amended_witness :
    (∀ q ∈ List.replicate 2 (⟨0, false, 0, 5000000⟩ : Tick), q.current_epoch = 0) ∧
    read_last_recorded_epoch [(⟨0, 0, 0, 0, 0, 9, 5000000, 0, 0, 0, 0⟩ : EpochRow)] = some 0 ∧
    (((run_loop [(⟨0, 0, 0, 0, 0, 9, 5000000, 0, 0, 0, 0⟩ : EpochRow)]
        mon_init (List.replicate 2 (⟨0, false, 0, 5000000⟩ : Tick))).2.2.count
          AlertKind.missP1 ≤ 1 ∧
      (run_loop [(⟨0, 0, 0, 0, 0, 9, 5000000, 0, 0, 0, 0⟩ : EpochRow)]
        mon_init (List.replicate 2 (⟨0, false, 0, 5000000⟩ : Tick))).2.2.count
          AlertKind.missP2 ≤ 1 ∧
      (run_loop [(⟨0, 0, 0, 0, 0, 9, 5000000, 0, 0, 0, 0⟩ : EpochRow)]
        mon_init (List.replicate 2 (⟨0, false, 0, 5000000⟩ : Tick))).2.2.count
          AlertKind.missP3 ≤ 1) ∧
     ((run_loop [(⟨0, 0, 0, 0, 0, 9, 5000000, 0, 0, 0, 0⟩ : EpochRow)]
        mon_init (List.replicate 2 (⟨0, false, 0, 5000000⟩ : Tick))).2.2.count
          AlertKind.consecutive ≤ 1 ∧
      (run_loop [(⟨0, 0, 0, 0, 0, 9, 5000000, 0, 0, 0, 0⟩ : EpochRow)]
        mon_init (List.replicate 2 (⟨0, false, 0, 5000000⟩ : Tick))).2.2.count
          AlertKind.total ≤ 1 ∧
      (run_loop [(⟨0, 0, 0, 0, 0, 9, 5000000, 0, 0, 0, 0⟩ : EpochRow)]
        mon_init (List.replicate 2 (⟨0, false, 0, 5000000⟩ : Tick))).2.2.count
          AlertKind.critical ≤ 1)) :=
  ⟨by decide, by decide,
   (alerts_at_most_once_per_epoch_amended 0
      [(⟨0, 0, 0, 0, 0, 9, 5000000, 0, 0, 0, 0⟩ : EpochRow)] mon_init
      (List.replicate 2 (⟨0, false, 0, 5000000⟩ : Tick)) (by decide)).1,
   (alerts_at_most_once_per_epoch_amended 0
      [(⟨0, 0, 0, 0, 0, 9, 5000000, 0, 0, 0, 0⟩ : EpochRow)] mon_init
      (List.replicate 2 (⟨0, false, 0, 5000000⟩ : Tick)) (by decide)).2 (by decide)⟩

/-! ### Claim C9: the set_field allowlist -/

/-- Claim C9: `overwrite_single_field` rejects, with a `ValueError` and
without touching the store, every field name outside the allowlist, and that
allowlist is exactly the ten non-key columns of the `tnom` table. -/
theorem overwrite_single_field_allowlist_spec :
    (∀ (db : Db) (epoch : Int) (field : String) (value : Int),
      field ∉ allowed_columns →
      overwrite_single_field db epoch field value =
        Except.error ("Invalid column name: " ++ field)) ∧
    allowed_columns = tnom_table_columns.erase "slash_epoch" := by
  constructor
  · intro db epoch field value h
    unfold overwrite_single_field
    rw [if_neg h]
  · rfl

/-- Claim C9 witness: even the primary-key column name itself is rejected. -/
theorem overwrite_single_field_allowlist_spec_witness :
    "slash_epoch" ∉ allowed_columns ∧
    overwrite_single_field [] 0 "slash_epoch" 1 =
      Except.error ("Invalid column name: " ++ "slash_epoch") :=
  ⟨by decide, overwrite_single_field_allowlist_spec.1 [] 0 "slash_epoch" 1 (by decide)⟩

end Tnom
